import Mathlib

/-!
A shallow embedding of the schema-validation core of the lexrpc library
(`lexrpc/base.py`) and of the client retry logic (`lexrpc/client.py`).

Modelling conventions:

* Python strings are sequences of Unicode code points; we model a plain
  string as `Str := List Char` and a string VALUE flowing through the
  validator as `GStr := List (List Char)`: its grapheme-cluster
  segmentation, each cluster a nonempty list of code points.  The
  `grapheme` library's `grapheme.length` is the number of clusters and
  `grapheme.slice(s, end=k)` is the first `k` clusters; the UTF-8 byte
  length is the sum of the code points' UTF-8 sizes.  We assume the
  ellipsis character appended by truncation forms its own grapheme
  cluster.
* Python dicts appearing as runtime VALUES are mutable and aliased, so a
  value-level dict is an address (`PVal.dict a`) into an explicit store;
  `Base._validate_schema`'s in-place truncation becomes a store update.
  Schema/lexicon dicts are only ever read, so they are plain data
  (`Schema`), a structure holding exactly the keys the code reads;
  absent keys are `none`/`[]`.
* Python truthiness is modelled at each use site (`none` and zero / empty
  values are falsy), mirroring the walrus-operator guards in the source.
* Exceptions: `VErr.validation` is `ValidationError`, `VErr.notImpl` is
  the `NotImplementedError` raised by `fail`, and `VErr.typeError`
  stands for any other Python crash (TypeError/KeyError/AttributeError/
  NameError) on pathological inputs; `VErr.fuelOut` is the fuel of the
  embedding (Python's recursion is bounded by the recursion limit).
* Error message strings are abbreviated: the source interpolates the
  offending value and names into the message, we keep short fixed texts.
* The inner `fail` of `_validate_schema` raises only when the instance
  was built with `validate=True`; otherwise execution falls through to
  the following checks, which the embedding reproduces.
-/

/-- A Python string as its list of code points. -/
abbrev Str := List Char

/-- A Python string value together with its grapheme-cluster segmentation:
each element is one user-perceived character (grapheme cluster). -/
abbrev GStr := List (List Char)

/-- The code points of a grapheme-segmented string. -/
def gcFlat (g : GStr) : Str := g.flatten

/-- Rebuild the Lean `String` (used for registry ids and comparisons). -/
def gcStr (g : GStr) : String := String.mk (gcFlat g)

/-- UTF-8 byte length of a grapheme-segmented string:
`len(val.encode('utf-8'))` in the source. -/
def utf8Len (g : GStr) : Int := ((gcFlat g).map Char.utf8Size).sum

/-- `grapheme.length(val)`: the number of grapheme clusters. -/
def gLen (g : GStr) : Int := (g.length : Int)

/-- Scalar JSON values appearing inside a lexicon schema (`const`, `enum`
members).  The atproto lexicon language only uses strings, integers and
booleans there. -/
inductive SVal where
  | s (v : String)
  | i (v : Int)
  | b (v : Bool)
deriving DecidableEq

/-- Exceptions of the embedded code, see the module comment. -/
inductive VErr where
  | validation (msg : String)
  | notImpl (msg : String)
  | typeError (msg : String)
  | fuelOut
deriving DecidableEq

/-- A runtime JSON-ish value.  Dicts are addresses into a `Store` because
Python dicts are mutable and aliased; `cidv` models a `CID` object. -/
inductive PVal where
  | null
  | bool (b : Bool)
  | int (n : Int)
  | str (s : GStr)
  | bytes (bs : List Nat)
  | arr (items : List PVal)
  | dict (a : Nat)
  | cidv (c : String)

/-- The contents of one Python dict: an insertion-ordered association list. -/
abbrev PDict := List (String × PVal)

/-- The heap of dict objects. -/
abbrev Store := List (Nat × PDict)

/-- Association-list lookup (first match), the semantics of `d.get(k)`. -/
def alookup {β : Type} (l : List (String × β)) (k : String) : Option β :=
  match l with
  | [] => none
  | (k2, v) :: rest => if k2 == k then some v else alookup rest k

/-- `d[k] = v` on a Python dict: replace in place if the key exists
(keeping its position), else append. -/
def aset {β : Type} (l : List (String × β)) (k : String) (v : β) :
    List (String × β) :=
  match l with
  | [] => [(k, v)]
  | (k2, v2) :: rest =>
    if k2 == k then (k2, v) :: rest else (k2, v2) :: aset rest k v

/-- The dict stored at address `a` (a dangling address reads as empty;
real executions only use live addresses). -/
def storeDict (store : Store) (a : Nat) : PDict :=
  match store with
  | [] => []
  | (a2, d) :: rest => if a2 == a then d else storeDict rest a

/-- `val.get(k)` on the dict value at address `a`. -/
def dictGet (store : Store) (a : Nat) (k : String) : Option PVal :=
  alookup (storeDict store a) k

/-- Keys of the dict at `a`, in insertion order (`val.keys()`). -/
def dictKeys (store : Store) (a : Nat) : List String :=
  (storeDict store a).map Prod.fst

/-- In-place update `val[k] = v` of the dict at address `a`. -/
def storeSet (store : Store) (a : Nat) (k : String) (v : PVal) : Store :=
  match store with
  | [] => []
  | (a2, d) :: rest =>
    if a2 == a then (a2, aset d k v) :: rest else (a2, d) :: storeSet rest a k v

/-- Python truthiness of a value (`if val:`); a dict is truthy when
nonempty, hence the store argument. -/
def pyTruthy (store : Store) : PVal → Bool
  | .null => false
  | .bool b => b
  | .int n => n != 0
  | .str s => !(gcFlat s).isEmpty
  | .bytes bs => !bs.isEmpty
  | .arr xs => !xs.isEmpty
  | .dict a => !(storeDict store a).isEmpty
  | .cidv _ => true

/-- The name of the Python runtime type of a value (`type(val).__name__`). -/
def pyType : PVal → String
  | .null => "NoneType"
  | .bool _ => "bool"
  | .int _ => "int"
  | .str _ => "str"
  | .bytes _ => "bytes"
  | .arr _ => "list"
  | .dict _ => "dict"
  | .cidv _ => "CID"

/-- `FIELD_TYPES` of `base.py`: the expected Python runtime type per
lexicon field type.  Absent keys (`ref`, `union`, `unknown`, `params`,
method types and nsids used as `type_`) give `none`: no type check. -/
def fieldTypes : String → Option String
  | "null" => some "NoneType"
  | "blob" => some "dict"
  | "boolean" => some "bool"
  | "cid-link" => some "CID"
  | "integer" => some "int"
  | "string" => some "str"
  | "bytes" => some "bytes"
  | "array" => some "list"
  | "object" => some "dict"
  | _ => none

/-- Python `val == c` between a runtime value and a schema scalar.  Note
`True == 1` and `False == 0` in Python. -/
def pvalEqSV : PVal → SVal → Bool
  | .str g, .s c => gcStr g == c
  | .int n, .i m => n == m
  | .bool b, .b c => b == c
  | .bool b, .i m => (if b then (1 : Int) else 0) == m
  | .int n, .b c => n == (if c then (1 : Int) else 0)
  | _, _ => false

/-- Python `val == s` between a runtime value and a plain string. -/
def pvalEqStr : PVal → String → Bool
  | .str g, s => gcStr g == s
  | _, _ => false

/-- Is the value a Python `str`? -/
def pvalIsStr : PVal → Bool
  | .str _ => true
  | _ => false

/-- Is the value a Python `dict`? -/
def pvalIsDict : PVal → Bool
  | .dict _ => true
  | _ => false

/-- Truthiness filter for an optional schema integer: `0` is falsy, so
`if minimum := schema.get('minimum'):` skips a declared bound of `0`. -/
def truthyI : Option Int → Option Int
  | some v => if v == 0 then none else some v
  | none => none

/-- Truthiness filter for an optional schema string (empty is falsy). -/
def truthyStr : Option String → Option String
  | some v => if v == "" then none else some v
  | none => none

/-- Truthiness filter for an optional schema scalar. -/
def truthySV : Option SVal → Option SVal
  | some (.s v) => if v == "" then none else some (.s v)
  | some (.i v) => if v == 0 then none else some (.i v)
  | some (.b v) => if v then some (.b v) else none
  | none => none

/-- Truthiness of an optional schema boolean (`schema.get('closed')`). -/
def truthyB : Option Bool → Bool
  | some b => b
  | none => false

/-- The scalar keys of a lexicon schema dict that the validator reads. -/
structure SCore where
  type : Option String := none
  const : Option SVal := none
  enum : List SVal := []
  minLength : Option Int := none
  maxLength : Option Int := none
  minGraphemes : Option Int := none
  maxGraphemes : Option Int := none
  minimum : Option Int := none
  maximum : Option Int := none
  format : Option String := none
  ref : Option String := none
  refs : Option (List String) := none
  closed : Option Bool := none
  required : List String := []
  nullable : List String := []
  encoding : Option String := none
deriving DecidableEq

/-- A lexicon schema / definition dict: the scalar keys plus the nested
schema-valued keys the code reads (`items`, `properties`, `record`,
`schema`, `input`, `output`, `message`, `parameters`). -/
inductive Schema where
  | mk (core : SCore) (items : Option Schema)
      (properties : List (String × Schema))
      (record schemaF input output message parameters : Option Schema)

/-- The scalar part of a schema. -/
def Schema.core : Schema → SCore
  | .mk c _ _ _ _ _ _ _ _ => c

/-- `schema.get('items')`. -/
def Schema.items : Schema → Option Schema
  | .mk _ i _ _ _ _ _ _ _ => i

/-- `schema.get('properties', {})`. -/
def Schema.properties : Schema → List (String × Schema)
  | .mk _ _ p _ _ _ _ _ _ => p

/-- `schema.get('record')`. -/
def Schema.record : Schema → Option Schema
  | .mk _ _ _ r _ _ _ _ _ => r

/-- `schema.get('schema')` (the body schema of an input/output/message
block). -/
def Schema.schemaF : Schema → Option Schema
  | .mk _ _ _ _ s _ _ _ _ => s

/-- `defn.get('input')`. -/
def Schema.input : Schema → Option Schema
  | .mk _ _ _ _ _ i _ _ _ => i

/-- `defn.get('output')`. -/
def Schema.output : Schema → Option Schema
  | .mk _ _ _ _ _ _ o _ _ => o

/-- `defn.get('message')`. -/
def Schema.message : Schema → Option Schema
  | .mk _ _ _ _ _ _ _ m _ => m

/-- `defn.get('parameters')`. -/
def Schema.parameters : Schema → Option Schema
  | .mk _ _ _ _ _ _ _ _ p => p

/-- `schema.get('type')`. -/
def Schema.type (s : Schema) : Option String := s.core.type

/-- `schema.get('ref')`. -/
def Schema.ref (s : Schema) : Option String := s.core.ref

/-- `schema.get('refs')`. -/
def Schema.refs (s : Schema) : Option (List String) := s.core.refs

/-- `schema.get('required', [])`. -/
def Schema.required (s : Schema) : List String := s.core.required

/-- `schema.get('nullable', [])`. -/
def Schema.nullable (s : Schema) : List String := s.core.nullable

/-- A schema dict with no keys at all. -/
def Schema.empty : Schema := .mk {} none [] none none none none none none

/-- Build a schema from scalar keys only. -/
def Schema.ofCore (c : SCore) : Schema := .mk c none [] none none none none none none

/-- Python truthiness of a schema dict (`if not schema:`): empty dicts are
falsy.  We model it as "all modelled keys absent". -/
def Schema.isEmpty : Schema → Bool
  | .mk c none [] none none none none none none => c == {}
  | _ => false

/-- The registry `self.defs`: fully-qualified id to definition dict. -/
abbrev Defs := List (String × Schema)

/-- Validation context: the `validate`/`truncate` flags of `Base.__init__`
and the loaded registry. -/
structure Ctx where
  validate : Bool
  truncate : Bool
  defs : Defs

/-- The inner `fail` of `_validate_schema`: raises `ValidationError` only
when validating, otherwise a no-op (execution falls through). -/
def failV (ctx : Ctx) (msg : String) : Except VErr Unit :=
  if ctx.validate then .error (.validation msg) else .ok ()

/-- `urljoin` as used on lexicon ids (no scheme, no slashes): a name
starting with `#` replaces the base's fragment, an empty name yields the
base without its fragment, anything else is already absolute. -/
def urljoinId (base ref : String) : String :=
  let baseNoFrag := String.mk (base.data.takeWhile (fun c => c ≠ '#'))
  if ref == "" then baseNoFrag
  else if ref.data.head? == some '#' then baseNoFrag ++ ref
  else ref

/-- `Base._get_def`: raises `NotImplementedError` (via the module-level
`fail`) when the id is missing or maps to a falsy (empty) dict. -/
def getDef (ctx : Ctx) (id : String) : Except VErr Schema :=
  match alookup ctx.defs id with
  | some s =>
    if s.isEmpty then .error (.notImpl (id ++ " not found")) else .ok s
  | none => .error (.notImpl (id ++ " not found"))

/-- The nested `get_schema` of `_validate_schema`: resolve a (possibly
relative) lexicon name, redirecting a `record` definition to its nested
`record` schema.  A missing/empty redirect target raises the inner
`fail`'s `ValidationError` when validating; with validation off Python
would return `None` and crash at the next attribute access, which we
model as an immediate `typeError`. -/
def getSchemaFn (ctx : Ctx) (lexicon lexName : String) :
    Except VErr (String × Schema) := do
  let schemaName := urljoinId lexicon lexName
  let s ← getDef ctx schemaName
  let s2 := if s.type == some "record" then s.record.getD Schema.empty else s
  if s2.isEmpty then
    if ctx.validate then
      .error (.validation ("lexicon " ++ schemaName ++ " not found"))
    else
      .error (.typeError "record schema is None")
  else
    .ok (schemaName, s2)

/-! ## String format checkers (`Base._validate_string_format`)

The regular expressions of `base.py` are translated into executable
matchers over `List Char`.  Each matcher's doc comment names the pattern
it embeds.  `datetime.fromisoformat` and `urllib.parse.urlparse` are
Python library functions; they are modelled by executable approximations
that are faithful for the input shapes reachable from the checks (noted
inline); no claim depends on those two branches. -/

/-- Is `c` in `[a-z]`? -/
def isLowerAZ (c : Char) : Bool := 'a' ≤ c && c ≤ 'z'

/-- Is `c` in `[A-Z]`? -/
def isUpperAZ (c : Char) : Bool := 'A' ≤ c && c ≤ 'Z'

/-- Is `c` in `[A-Za-z]`? -/
def isAlphaAZ (c : Char) : Bool := isLowerAZ c || isUpperAZ c

/-- Is `c` in `[0-9]`? -/
def isDigit09 (c : Char) : Bool := '0' ≤ c && c ≤ '9'

/-- `str.lower()` (ASCII case mapping; the inputs here are identifiers). -/
def lowerStr (cs : Str) : Str := cs.map Char.toLower

/-- Does `pat` occur as a contiguous run inside `cs` (Python `pat in s`)? -/
def containsSub (cs pat : Str) : Bool :=
  match cs with
  | [] => pat.isEmpty
  | _ :: rest => cs.take pat.length == pat || containsSub rest pat

/-- Python `s.endswith(pat)`. -/
def endsWithSub (cs pat : Str) : Bool :=
  cs.drop (cs.length - pat.length) == pat

/-- `DOMAIN_PATTERN` leading label: `[a-z0-9][a-z0-9-]{0,62}(?<!-)`. -/
def domLabelOk (l : Str) : Bool :=
  match l with
  | [] => false
  | c :: rest =>
    (isLowerAZ c || isDigit09 c) && rest.length ≤ 62 &&
      rest.all (fun d => isLowerAZ d || isDigit09 d || d == '-') &&
      l.getLast? ≠ some '-'

/-- `DOMAIN_PATTERN` final label: `[a-z][a-z0-9-]*(?<!-)`. -/
def domFinalOk (l : Str) : Bool :=
  match l with
  | [] => false
  | c :: rest =>
    isLowerAZ c && rest.all (fun d => isLowerAZ d || isDigit09 d || d == '-') &&
      l.getLast? ≠ some '-'

/-- Split on a separator character (like `str.split`, but keeping empty
parts, which then fail the per-label checks exactly as in the regexes). -/
def splitOnChar (sep : Char) (cs : Str) : List Str :=
  match cs with
  | [] => [[]]
  | c :: rest =>
    let r := splitOnChar sep rest
    if c == sep then [] :: r
    else
      match r with
      | [] => [[c]]
      | h :: t => (c :: h) :: t

/-- `DOMAIN_RE`: `^([a-z0-9][a-z0-9-]{0,62}(?<!-)\.){1,}[a-z][a-z0-9-]*(?<!-)$`.
Each group ends in a literal dot and no label may contain a dot, so the
regex is equivalent to this split-based check. -/
def domainMatch (cs : Str) : Bool :=
  let parts := splitOnChar '.' cs
  parts.length ≥ 2 && parts.dropLast.all domLabelOk &&
    (match parts.getLast? with
     | some l => domFinalOk l
     | none => false)

/-- Is `c` in the DID id charset `[A-Za-z0-9._%:-]`? -/
def didCharOk (c : Char) : Bool :=
  isAlphaAZ c || isDigit09 c || c == '.' || c == '_' || c == '%' || c == ':' ||
    c == '-'

/-- `DID_RE`: `^did:[a-z]+:[A-Za-z0-9._%:-]{1,2048}(?<!:)$`.  The method
segment is the maximal lowercase run after `did:` (equivalent to the
backtracking regex because `:` is not lowercase). -/
def didMatch (cs : Str) : Bool :=
  match cs with
  | 'd' :: 'i' :: 'd' :: ':' :: rest =>
    let method := rest.takeWhile isLowerAZ
    match rest.drop method.length with
    | ':' :: idpart =>
      !method.isEmpty && 1 ≤ idpart.length && idpart.length ≤ 2048 &&
        idpart.all didCharOk && idpart.getLast? ≠ some ':'
    | _ => false
  | _ => false

/-- `NSID_PATTERN` leading label: `(?!-)[a-z0-9-]{1,63}(?<!-)`. -/
def nsidLabelOk (l : Str) : Bool :=
  !l.isEmpty && l.length ≤ 63 &&
    l.all (fun c => isLowerAZ c || isDigit09 c || c == '-') &&
    l.head? ≠ some '-' && l.getLast? ≠ some '-'

/-- `NSID_PATTERN` final label: `[a-zA-Z][a-zA-Z0-9]{0,62}`. -/
def nsidFinalOk (l : Str) : Bool :=
  match l with
  | [] => false
  | c :: rest =>
    isAlphaAZ c && rest.length ≤ 62 &&
      rest.all (fun d => isAlphaAZ d || isDigit09 d)

/-- `NSID_RE`:
`^(?![0-9])((?!-)[a-z0-9-]{1,63}(?<!-)\.){2,}[a-zA-Z][a-zA-Z0-9]{0,62}$`.
The lookahead `(?![0-9])` constrains only the first character of the
whole string. -/
def nsidMatch (cs : Str) : Bool :=
  let parts := splitOnChar '.' cs
  (match cs.head? with
   | some c => !isDigit09 c
   | none => false) &&
    parts.length ≥ 3 && parts.dropLast.all nsidLabelOk &&
    (match parts.getLast? with
     | some l => nsidFinalOk l
     | none => false)

/-- Is `c` in the at-uri rkey charset `[a-zA-Z0-9-.:~_]`? -/
def rkeyUriCharOk (c : Char) : Bool :=
  isAlphaAZ c || isDigit09 c || c == '-' || c == '.' || c == ':' || c == '~' ||
    c == '_'

/-- `AT_URI_RE`:
`^at://(repo)(/(collection)(/(rkey))?)?$` with `repo` a DID or a domain,
`collection` an NSID and `rkey` one or more rkey chars.  No alternative
contains `/`, so splitting the remainder on `/` is exact. -/
def atUriMatch (cs : Str) : Bool :=
  match cs with
  | 'a' :: 't' :: ':' :: '/' :: '/' :: rest =>
    let repoOk := fun (r : Str) => didMatch r || domainMatch r
    match splitOnChar '/' rest with
    | [repo] => repoOk repo
    | [repo, coll] => repoOk repo && nsidMatch coll
    | [repo, coll, rkey] =>
      repoOk repo && nsidMatch coll && !rkey.isEmpty && rkey.all rkeyUriCharOk
    | _ => false
  | _ => false

/-- `CID_RE`: `^[A-Za-z0-9+]{8,}$`. -/
def cidMatch (cs : Str) : Bool :=
  cs.length ≥ 8 && cs.all (fun c => isAlphaAZ c || isDigit09 c || c == '+')

/-- `re.sub(r'([+-][0-9]{2}:[0-9]{2}|Z)$', '', val)`: strip one trailing
timezone suffix. -/
def stripTz (cs : Str) : Str :=
  if cs.getLast? == some 'Z' then cs.dropLast
  else
    match cs.reverse with
    | m2 :: m1 :: ':' :: h2 :: h1 :: sign :: _ =>
      if (sign == '+' || sign == '-') && isDigit09 m2 && isDigit09 m1 &&
          isDigit09 h2 && isDigit09 h1 then
        cs.take (cs.length - 6)
      else cs
    | _ => cs

/-- `re.sub(r'\.[0-9]+$', '', val)`: strip trailing fractional seconds. -/
def stripFrac (cs : Str) : Str :=
  let rev := cs.reverse
  let digits := rev.takeWhile isDigit09
  if !digits.isEmpty && (rev.drop digits.length).head? == some '.' then
    cs.take (cs.length - (digits.length + 1))
  else cs

/-- Numeric value of a run of ASCII digits. -/
def digitsVal (cs : Str) : Nat :=
  cs.foldl (fun acc c => acc * 10 + (c.toNat - '0'.toNat)) 0

/-- Days in a month of the proleptic Gregorian calendar. -/
def daysInMonth (y m : Nat) : Nat :=
  if m == 2 then
    if y % 4 == 0 && (y % 100 != 0 || y % 400 == 0) then 29 else 28
  else if m == 4 || m == 6 || m == 9 || m == 11 then 30
  else 31

/-- Modelled approximation of `datetime.fromisoformat` for the shapes
reachable here (timezone and fractional seconds already stripped):
`YYYY-MM-DD` optionally followed by a one-character separator and
`HH:MM[:SS]`, with calendar range checks.  Not used by any claim. -/
def isoParses (cs : Str) : Bool :=
  match cs with
  | y1 :: y2 :: y3 :: y4 :: '-' :: mo1 :: mo2 :: '-' :: d1 :: d2 :: rest =>
    let dateOk :=
      [y1, y2, y3, y4, mo1, mo2, d1, d2].all isDigit09 &&
        (let y := digitsVal [y1, y2, y3, y4]
         let mo := digitsVal [mo1, mo2]
         let d := digitsVal [d1, d2]
         1 ≤ y && 1 ≤ mo && mo ≤ 12 && 1 ≤ d && d ≤ daysInMonth y mo)
    let timeOk := fun (t : Str) =>
      match t with
      | [h1, h2, ':', mi1, mi2] =>
        [h1, h2, mi1, mi2].all isDigit09 &&
          digitsVal [h1, h2] ≤ 23 && digitsVal [mi1, mi2] ≤ 59
      | [h1, h2, ':', mi1, mi2, ':', s1, s2] =>
        [h1, h2, mi1, mi2, s1, s2].all isDigit09 &&
          digitsVal [h1, h2] ≤ 23 && digitsVal [mi1, mi2] ≤ 59 &&
          digitsVal [s1, s2] ≤ 59
      | _ => false
    match rest with
    | [] => dateOk
    | _ :: t => dateOk && timeOk t
  | _ => false

/-- `TID_RE`: `^[a-z234567]{13}$`. -/
def tidMatch (cs : Str) : Bool :=
  cs.length == 13 && cs.all (fun c => isLowerAZ c || ('2' ≤ c && c ≤ '7'))

/-- Is `c` in the record-key charset `[A-Za-z0-9._:~-]`? -/
def rkeyCharOk (c : Char) : Bool :=
  isAlphaAZ c || isDigit09 c || c == '.' || c == '_' || c == ':' || c == '~' ||
    c == '-'

/-- `RKEY_RE`: `^[A-Za-z0-9._:~-]{1,512}$`. -/
def rkeyMatch (cs : Str) : Bool :=
  1 ≤ cs.length && cs.length ≤ 512 && cs.all rkeyCharOk

/-- `LANG_RE`: `^(i|[a-z]{2,3})(-[A-Za-z0-9-]+)?$`. -/
def langMatch (cs : Str) : Bool :=
  let primary := cs.takeWhile (fun c => c ≠ '-')
  let primaryOk :=
    primary == ['i'] ||
      (2 ≤ primary.length && primary.length ≤ 3 && primary.all isLowerAZ)
  match cs.drop primary.length with
  | [] => primaryOk
  | '-' :: sub =>
    primaryOk && !sub.isEmpty &&
      sub.all (fun c => isAlphaAZ c || isDigit09 c || c == '-')
  | _ => false

/-- Modelled `urlparse(val)`-based check of the `uri` branch: `val` has a
syntactically valid scheme (`[a-zA-Z][a-zA-Z0-9+.-]*` before the first
`:`) and at least one of netloc/path/query/fragment is nonempty, which
for a valid scheme means anything at all follows the colon. -/
def uriParsedOk (cs : Str) : Bool :=
  let scheme := cs.takeWhile (fun c => c ≠ ':')
  match cs.drop scheme.length with
  | ':' :: rest =>
    (match scheme with
     | [] => false
     | c :: tail =>
       isAlphaAZ c &&
         tail.all (fun d => isAlphaAZ d || isDigit09 d || d == '+' || d == '.' ||
           d == '-')) &&
      !rest.isEmpty
  | _ => false

/-- One `check(condition)` of `_validate_string_format`: raises
`ValidationError` when the condition is falsy. -/
def vsfCheck (val : Str) (format : String) (cond : Bool) : Except VErr Unit :=
  if cond then .ok ()
  else .error (.validation (String.mk val ++ " is invalid for format " ++ format))

/-- `Base._validate_string_format`, branch for branch.  NOTE the `handle`
branch: the source tests `format in 'handle'` (base.py line 516), a
SUBSTRING test, so any substring of `"handle"` (e.g. `"hand"`, `"and"`)
dispatches to the handle checks instead of reaching the fail-closed
`unknown format` arm. -/
def validateStringFormat (val : Str) (format : String) : Except VErr Unit := do
  vsfCheck val format (!val.isEmpty)
  if format == "at-identifier" then
    vsfCheck val format (didMatch val || domainMatch (lowerStr val))
  else if format == "at-uri" then do
    vsfCheck val format (val.length < 8 * 1024)
    vsfCheck val format (atUriMatch val)
    vsfCheck val format (!containsSub val "/./".data && !containsSub val "/../".data &&
      !endsWithSub val "/.".data && !endsWithSub val "/..".data)
  else if format == "cid" then
    vsfCheck val format (cidMatch val)
  else if format == "datetime" then do
    vsfCheck val format (containsSub val "T".data)
    let stripped := stripTz val
    vsfCheck val format (stripped ≠ val)
    vsfCheck val format (isoParses (stripFrac stripped))
  else if format == "did" then
    vsfCheck val format (didMatch val)
  else if format == "nsid" then do
    vsfCheck val format (val.length ≤ 317)
    vsfCheck val format (nsidMatch val && containsSub val ".".data)
  else if containsSub "handle".data format.data then do
    -- source: `elif format in 'handle':` — substring membership, not equality
    vsfCheck val format (val.length ≤ 253)
    vsfCheck val format (domainMatch (lowerStr val))
  else if format == "tid" then do
    vsfCheck val format (tidMatch val)
    -- high bit, big-endian, can't be 1: `check(not ord(val[0]) & 0x40)`
    vsfCheck val format
      (match val.head? with
       | some c => (c.toNat &&& 0x40) == 0
       | none => true)
  else if format == "record-key" then
    vsfCheck val format (val ≠ ".".data && val ≠ "..".data && rkeyMatch val)
  else if format == "uri" then do
    vsfCheck val format (val.length < 8 * 1024)
    vsfCheck val format (!containsSub val " ".data)
    vsfCheck val format (uriParsedOk val)
  else if format == "language" then
    vsfCheck val format (langMatch val)
  else
    .error (.validation ("unknown format " ++ format))

/-! ## The schema validator (`Base._validate_schema`)

`_validate_schema(name, val, type_, lexicon, schema)` returns `None` and
communicates by raising; its only side effect is the in-place truncation
of string properties.  The embedding returns the store after the call
plus a ghost flag recording whether any truncation write happened.  The
helper functions below embed the successive blocks of the source in
order; the mutual recursion mirrors the recursive calls for array items
and object properties (fuel-bounded, as Python is by its recursion
limit). -/

/-- Lines 315-317: the `const` check (a falsy `const` is skipped by the
walrus guard). -/
def checkConst (ctx : Ctx) (val : PVal) (schema : Schema) : Except VErr Unit :=
  match truthySV schema.core.const with
  | some c => if !pvalEqSV val c then failV ctx "is not const value" else .ok ()
  | none => .ok ()

/-- Lines 319-321: the `enum` check (an absent or empty list is skipped). -/
def checkEnum (ctx : Ctx) (val : PVal) (schema : Schema) : Except VErr Unit :=
  match schema.core.enum with
  | [] => .ok ()
  | es =>
    if !es.any (pvalEqSV val) then failV ctx "is not one of enum values"
    else .ok ()

/-- Lines 323-328: the `unknown` kind.  A dict with a truthy `$type` swaps
in that type's schema and falls through (`none` here models the early
`return`: accept). -/
def resolveUnknown (ctx : Ctx) (val : PVal) (type_ : String) (lexicon : String)
    (schema : Schema) (store : Store) : Except VErr (Option (String × Schema)) :=
  if type_ == "unknown" then
    match val with
    | .dict a =>
      match dictGet store a "$type" with
      | some tv =>
        if pyTruthy store tv then
          match tv with
          | .str g => (getSchemaFn ctx lexicon (gcStr g)).map some
          | _ => .error (.typeError "urljoin on non-str $type")
        else .ok none
      | none => .ok none
    | _ => .ok none
  else .ok (some (lexicon, schema))

/-- Lines 330-332: `type(val) != FIELD_TYPES[type_]`. -/
def checkFieldType (ctx : Ctx) (val : PVal) (type_ : String) : Except VErr Unit :=
  match fieldTypes type_ with
  | some expected =>
    if pyType val ≠ expected then failV ctx "has unexpected type" else .ok ()
  | none => .ok ()

/-- Line 337: `len(val.encode('utf-8') if type_ == 'string' else val)`. -/
def pyLenOf (store : Store) (type_ : String) (val : PVal) : Except VErr Int :=
  if type_ == "string" then
    match val with
    | .str g => .ok (utf8Len g)
    | _ => .error (.typeError "encode on non-str")
  else
    match val with
    | .str g => .ok ((gcFlat g).length : Int)
    | .bytes bs => .ok ((bs.length : Nat) : Int)
    | .arr xs => .ok ((xs.length : Nat) : Int)
    | .dict a => .ok (((storeDict store a).length : Nat) : Int)
    | _ => .error (.typeError "len of unsized")

/-- Lines 334-341: min/maxLength for array/bytes/string — BYTE length for
strings.  The source's `if max … elif min …` shape is kept. -/
def checkLengths (ctx : Ctx) (store : Store) (val : PVal) (type_ : String)
    (schema : Schema) : Except VErr Unit :=
  if type_ == "array" || type_ == "bytes" || type_ == "string" then do
    let len ← pyLenOf store type_ val
    let maxHit := match truthyI schema.core.maxLength with
      | some mx => decide (len > mx)
      | none => false
    let minHit := match truthyI schema.core.minLength with
      | some mn => decide (len < mn)
      | none => false
    if maxHit then failV ctx "is longer than maxLength"
    else if minHit then failV ctx "is shorter than minLength"
    else .ok ()
  else .ok ()

/-- Lines 343-357: string `format` (a checker `ValidationError` is caught
and re-raised through the inner `fail`) and grapheme bounds. -/
def checkStringBlock (ctx : Ctx) (val : PVal) (type_ : String)
    (schema : Schema) : Except VErr Unit :=
  if type_ == "string" then do
    (match truthyStr schema.core.format with
     | some f =>
       match val with
       | .str g =>
         (match validateStringFormat (gcFlat g) f with
          | .ok () => .ok ()
          | .error (.validation m) => failV ctx m
          | .error e => .error e)
       | _ => .error (.typeError "format check on non-str")
     | none => .ok ())
    let minG := truthyI schema.core.minGraphemes
    let maxG := truthyI schema.core.maxGraphemes
    if minG.isSome || maxG.isSome then
      match val with
      | .str g => do
        let len := gLen g
        (match minG with
         | some mn =>
           if len < mn then failV ctx "is shorter than minGraphemes" else .ok ()
         | none => .ok ())
        (match maxG with
         | some mx =>
           if len > mx then failV ctx "is longer than maxGraphemes" else .ok ()
         | none => .ok ())
      | _ => .error (.typeError "grapheme.length on non-str")
    else .ok ()
  else .ok ()

/-- Python `val < m` against a number (TypeError for unorderable types;
`bool` is an `int`). -/
def pyLtInt : PVal → Int → Except VErr Bool
  | .int n, m => .ok (n < m)
  | .bool b, m => .ok ((if b then (1 : Int) else 0) < m)
  | _, _ => .error (.typeError "unorderable types")

/-- Python `val > m` against a number. -/
def pyGtInt : PVal → Int → Except VErr Bool
  | .int n, m => .ok (n > m)
  | .bool b, m => .ok ((if b then (1 : Int) else 0) > m)
  | _, _ => .error (.typeError "unorderable types")

/-- Lines 359-364: numeric bounds.  The walrus guards
`if minimum := schema.get('minimum'):` / `if maximum := …` skip a
declared bound of `0` (it is falsy). -/
def checkNumBounds (ctx : Ctx) (val : PVal) (schema : Schema) :
    Except VErr Unit := do
  (match truthyI schema.core.minimum with
   | some mn => do
     let lt ← pyLtInt val mn
     if lt then failV ctx "is lower than minimum" else .ok ()
   | none => .ok ())
  (match truthyI schema.core.maximum with
   | some mx => do
     let gt ← pyGtInt val mx
     if gt then failV ctx "is higher than maximum" else .ok ()
   | none => .ok ())

/-- Lines 366-370: `token` values must equal the containing lexicon's own
id, which must itself be a registered def. -/
def checkToken (ctx : Ctx) (val : PVal) (lexicon : String) (schema : Schema) :
    Except VErr Unit :=
  if !schema.isEmpty && schema.type == some "token" then
    if !pvalEqStr val lexicon then failV ctx ("is not token " ++ lexicon)
    else if (alookup ctx.defs lexicon).isNone then failV ctx "not found"
    else .ok ()
  else .ok ()

/-- Lines 372-378: the `ref` kind: a string value must equal the ref
name, otherwise the value must be a dict; then the schema is swapped for
the resolved target. -/
def resolveRefStep (ctx : Ctx) (val : PVal) (type_ : String) (lexicon : String)
    (schema : Schema) : Except VErr (String × Schema) :=
  if type_ == "ref" then
    match schema.ref with
    | none => .error (.typeError "KeyError: ref")
    | some ref => do
      (if pvalIsStr val && !pvalEqStr val ref then failV ctx ("is not " ++ ref)
       else if !pvalIsDict val then failV ctx "is not object"
       else .ok ())
      getSchemaFn ctx lexicon ref
  else .ok (lexicon, schema)

/-- Lines 380-401: the `union` kind.  The discriminator is the dict's
`$type` (or the bare string value); if the union is `closed` it must be
among the resolved `refs`; then the discriminator is resolved —
`except NotImplementedError: return` makes an unresolvable discriminator
an early success (`none` here). -/
def resolveUnionStep (ctx : Ctx) (val : PVal) (type_ : String)
    (lexicon : String) (schema : Schema) (store : Store) :
    Except VErr (Option (String × Schema)) :=
  if type_ == "union" then do
    let inner? ← (match val with
      | .dict a =>
        let tv := (dictGet store a "$type").getD .null
        if !pyTruthy store tv then do
          failV ctx "missing $type"
          .ok (some tv)
        else .ok (some tv)
      | .str _ => .ok (some val)
      | _ => do
        -- with validation off Python leaves `inner_type` unbound here
        failV ctx "is invalid"
        .ok none)
    (match truthyB schema.core.closed, schema.refs with
     | true, none => .error (.typeError "KeyError: refs")
     | true, some rs =>
       let refs := rs.map (urljoinId lexicon)
       match inner? with
       | none => .error (.typeError "NameError: inner_type")
       | some iv =>
         let isMem := match iv with
           | .str g => refs.contains (gcStr g)
           | _ => false
         if !isMem then failV ctx "isn't one of closed union refs" else .ok ()
     | false, _ => .ok ())
    match inner? with
    | some (.str g) =>
      match getSchemaFn ctx lexicon (gcStr g) with
      | .ok ls => .ok (some ls)
      | .error (.notImpl _) => .ok none
      | .error e => .error e
    | some _ => .error (.typeError "urljoin on non-str")
    | none => .error (.typeError "NameError: inner_type")
  else .ok (some (lexicon, schema))

/-- Lines 441-444 (the value rewrite): the first `maxGraphemes - 1`
grapheme clusters plus a single ellipsis, applied only above the bound. -/
def truncStr (mg : Int) (g : GStr) : GStr :=
  if gLen g > mg then g.take (mg - 1).toNat ++ [['…']] else g

/-- Lines 453-456: `params` schemas reject keys not in `properties`. -/
def paramsCheck (ctx : Ctx) (store : Store) (val : PVal) (schema : Schema)
    (props : List (String × Schema)) : Except VErr Unit :=
  if schema.type == some "params" then
    match val with
    | .dict a =>
      let pnames := props.map Prod.fst
      let unknown := (dictKeys store a).filter (fun k => !pnames.contains k)
      if !unknown.isEmpty then failV ctx "unknown parameters" else .ok ()
    | _ => .error (.typeError "keys of non-dict")
  else .ok ()

mutual

/-- `Base._validate_schema` (base.py lines 275-456), assembled from the
block embeddings above in source order.  Returns the store after the
call and a ghost flag: whether any truncation write happened. -/
def validateSchema (ctx : Ctx) (fuel : Nat) (name : String) (val : PVal)
    (type_ : String) (lexicon : String) (schema : Schema) (store : Store) :
    Except VErr (Store × Bool) :=
  match fuel with
  | 0 => .error .fuelOut
  | fuel + 1 => do
    checkConst ctx val schema
    checkEnum ctx val schema
    match ← resolveUnknown ctx val type_ lexicon schema store with
    | none => .ok (store, false)
    | some (lexicon, schema) => do
      checkFieldType ctx val type_
      checkLengths ctx store val type_ schema
      checkStringBlock ctx val type_ schema
      checkNumBounds ctx val schema
      checkToken ctx val lexicon schema
      let (lexicon, schema) ← resolveRefStep ctx val type_ lexicon schema
      match ← resolveUnionStep ctx val type_ lexicon schema store with
      | none => .ok (store, false)
      | some (lexicon, schema) => do
        let st1 ←
          (if type_ == "array" then
             match val with
             | .arr xs => validateItems ctx fuel name xs schema lexicon store
             | _ => .error (.typeError "iteration over non-list")
           else .ok (store, false))
        let props := schema.properties
        (if !props.isEmpty && !pvalIsDict val then failV ctx "should be object"
         else .ok ())
        let st2 ←
          validateProps ctx fuel val props schema.required schema.nullable
            lexicon st1.1
        paramsCheck ctx st2.1 val schema props
        .ok (st2.1, st1.2 || st2.2)
termination_by structural fuel

/-- Lines 415-419: validate every array element against `items`. -/
def validateItems (ctx : Ctx) (fuel : Nat) (name : String) (items : List PVal)
    (schema : Schema) (lexicon : String) (store : Store) :
    Except VErr (Store × Bool) :=
  match fuel with
  | 0 => .error .fuelOut
  | fuel + 1 =>
    match items with
    | [] => .ok (store, false)
    | x :: rest =>
      match schema.items with
      | none => .error (.typeError "KeyError: items")
      | some ischema =>
        match ischema.type with
        | none => .error (.typeError "KeyError: type")
        | some itype => do
          let r1 ← validateSchema ctx fuel name x itype lexicon ischema store
          let r2 ← validateItems ctx fuel name rest schema lexicon r1.1
          .ok (r2.1, r1.2 || r2.2)
termination_by structural fuel

/-- Lines 427-451: the property loop.  A missing property is an error
only when required; an explicit `None` needs type `null` or membership
in `nullable`; in truncate mode a string property over `maxGraphemes` is
rewritten IN PLACE (the store update) and validation continues with the
truncated value; a `ref`-typed property is resolved first (unless the
truncation branch was taken, which shadows it — `elif` in the source). -/
def validateProps (ctx : Ctx) (fuel : Nat) (val : PVal)
    (props : List (String × Schema)) (required nullable : List String)
    (lexicon : String) (store : Store) : Except VErr (Store × Bool) :=
  match fuel with
  | 0 => .error .fuelOut
  | fuel + 1 =>
    match props with
    | [] => .ok (store, false)
    | (pname, pschema) :: rest =>
      match val with
      | .dict a =>
        match dictGet store a pname with
        | none => do
          (if required.contains pname then
             failV ctx ("missing required property " ++ pname)
           else .ok ())
          validateProps ctx fuel val rest required nullable lexicon store
        | some pv =>
          match pschema.type with
          | none => .error (.typeError "KeyError: type")
          | some ptype =>
            match pv with
            | .null => do
              (if ptype ≠ "null" && !nullable.contains pname then
                 failV ctx ("property " ++ pname ++ " is not nullable")
               else .ok ())
              validateProps ctx fuel val rest required nullable lexicon store
            | pv =>
              match (if ctx.truncate then truthyI pschema.core.maxGraphemes
                     else none) with
              | some mg =>
                (match pv with
                 | .str g =>
                   let didT := gLen g > mg
                   let pv2 := if didT then PVal.str (truncStr mg g) else pv
                   let store2 :=
                     if didT then storeSet store a pname pv2 else store
                   do
                     let r1 ←
                       validateSchema ctx fuel pname pv2 ptype lexicon pschema
                         store2
                     let r2 ←
                       validateProps ctx fuel val rest required nullable
                         lexicon r1.1
                     .ok (r2.1, didT || r1.2 || r2.2)
                 | _ => .error (.typeError "grapheme.length on non-str"))
              | none =>
                if ptype == "ref" then
                  match pschema.ref with
                  | none => .error (.typeError "KeyError: ref")
                  | some r => do
                    let plsch ← getSchemaFn ctx lexicon r
                    match plsch.2.type with
                    | none => .error (.typeError "KeyError: type")
                    | some ptype2 => do
                      let r1 ←
                        validateSchema ctx fuel pname pv ptype2 plsch.1
                          plsch.2 store
                      let r2 ←
                        validateProps ctx fuel val rest required nullable
                          lexicon r1.1
                      .ok (r2.1, r1.2 || r2.2)
                else do
                  let r1 ←
                    validateSchema ctx fuel pname pv ptype lexicon pschema store
                  let r2 ←
                    validateProps ctx fuel val rest required nullable lexicon
                      r1.1
                  .ok (r2.1, r1.2 || r2.2)
      | _ => .error (.typeError "membership test on non-dict")
termination_by structural fuel

end

/-- `defn.get(type, {})` for the five schema-bearing keys of a method /
record definition (`Base.validate` line 254). -/
def schemaGetKind (defn : Schema) (ftype : String) : Option Schema :=
  if ftype == "input" then defn.input
  else if ftype == "output" then defn.output
  else if ftype == "message" then defn.message
  else if ftype == "parameters" then defn.parameters
  else if ftype == "record" then defn.record
  else none

/-- `Base.validate` (base.py lines 228-273).  Returns the object it was
passed (all four `return` statements return `obj`), the store after
validation, and the ghost truncation flag.  A non-JSON declared encoding
or an absent schema passes the value through unvalidated; with both
flags off nothing runs at all. -/
def baseValidate (ctx : Ctx) (fuel : Nat) (nsid ftype : String) (obj : PVal)
    (store : Store) : Except VErr (PVal × Store × Bool) :=
  if !ctx.validate && !ctx.truncate then .ok (obj, store, false)
  else if !(["input", "output", "message", "parameters", "record"].contains
      ftype) then
    .error (.typeError "AssertionError")
  else
    match getDef ctx nsid with
    | .error e => .error e
    | .ok defn =>
      let base := (schemaGetKind defn ftype).getD Schema.empty
      let passThrough := match truthyStr base.core.encoding with
        | some enc => enc != "application/json"
        | none => false
      if passThrough then .ok (obj, store, false)
      else
        let schemaOpt :=
          if ["input", "output", "message"].contains ftype then base.schemaF
          else some base
        let schema := schemaOpt.getD Schema.empty
        if schema.isEmpty then .ok (obj, store, false)
        else
          match validateSchema ctx fuel ftype obj nsid nsid schema store with
          | .error e => .error e
          | .ok (store2, tr) => .ok (obj, store2, tr)

/-! ## Registry construction (`Base.__init__`, base.py lines 156-208) -/

/-- A lexicon document: the keys `Base.__init__` reads. -/
structure Lexicon where
  id : Option String := none
  lexiconV : Option Int := none
  defs : List (String × Schema) := []

/-- `LEXICON_TYPES | PARAMETER_TYPES` of base.py. -/
def LEXICON_TYPES_ALL : List String :=
  ["query", "procedure", "subscription", "object", "record", "ref", "token",
   "array", "boolean", "integer", "number", "string"]

/-- The inner loop of `Base.__init__` over one document's `defs`: each
definition is stored under its fully-qualified id by plain dict
assignment — an id already present is silently overwritten.  (The
per-field schema check of lines 194-201 reads `defn.get('field')`, the
literal key `'field'` — a source bug — so it never fires and there is
nothing to model.) -/
def loadDefs (nsid : String) :
    List (String × Schema) → Defs → Except VErr Defs
  | [], defs => .ok defs
  | (dname, defn) :: rest, defs =>
    let id := if dname == "main" then nsid else nsid ++ "#" ++ dname
    let defs := aset defs id defn
    match defn.type with
    | none => .error (.typeError "KeyError: type")
    | some t =>
      if !LEXICON_TYPES_ALL.contains t then
        .error (.validation ("Bad type for lexicon " ++ id))
      else
        loadDefs nsid rest (aset defs id defn)

/-- The outer loop of `Base.__init__`: document-level shape checks, then
the defs. -/
def loadLexicons : List Lexicon → Defs → Except VErr Defs
  | [], defs => .ok defs
  | lx :: rest, defs =>
    match lx.id with
    | none => .error (.validation "Lexicon missing or invalid id field")
    | some nsid =>
      if nsid == "" then
        .error (.validation "Lexicon missing or invalid id field")
      else if lx.lexiconV ≠ some 1 then
        .error (.validation "lexicon field should be 1")
      else
        match loadDefs nsid lx.defs defs with
        | .error e => .error e
        | .ok defs2 => loadLexicons rest defs2

/-- `BLOB_DEF` of base.py. -/
def blobDef : Schema :=
  Schema.mk { type := some "record" } none []
    (some (Schema.mk { required := ["ref", "mimeType", "size"] } none
      [("ref", Schema.ofCore { type := some "ref" }),
       ("mimeType", Schema.ofCore { type := some "string", minLength := some 1 }),
       ("size", Schema.ofCore { type := some "integer", minimum := some 1 })]
      none none none none none none))
    none none none none none

/-- `Base.__init__`'s registry construction from a list of lexicon
documents (the `validate`/`truncate` flags play no role in it beyond the
dead block noted at `loadDefs`): load every document, then inject the
synthetic `blob` definition. -/
def mkBase (lexicons : List Lexicon) : Except VErr Defs :=
  match loadLexicons lexicons [] with
  | .error e => .error e
  | .ok defs => .ok (aset defs "blob" blobDef)

/-! ## The client call path (`Client.call`, client.py lines 137-260)

The embedding covers the response-handling control flow: session update
on login/refresh, the token-expired refresh-and-retry, and
`raise_for_status`.  Each HTTP request is abstracted as one draw from a
response oracle indexed by a global request counter; the request's
parameter validation, URL and header construction (which precede the
request and do not influence the retry logic) live inside the oracle.
Output schema validation after a successful response is the modelled
client's `validate=False, truncate=False` configuration, under which
`Base.validate` returns the body unchanged.  Of the stored session dict
only the two token fields are modelled (nothing else is ever read). -/

/-- `TOKEN_ERRORS` of client.py. -/
def TOKEN_ERRORS : List String :=
  ["AccountNotFound", "AuthenticationRequired", "ExpiredToken", "InvalidToken",
   "TokenRequired"]

/-- `LOGIN_NSID` of client.py. -/
def LOGIN_NSID : String := "com.atproto.server.createSession"

/-- `REFRESH_NSID` of client.py. -/
def REFRESH_NSID : String := "com.atproto.server.refreshSession"

/-- The fields of an HTTP response that `Client.call`'s control flow
reads: `resp.ok`, whether the body decodes to a truthy JSON dict, its
`error` field, and (for login/refresh outputs) its token fields. -/
structure Resp where
  ok : Bool
  isJsonDict : Bool := false
  errorField : Option String := none
  accessJwt : Option String := none
  refreshJwt : Option String := none

/-- The token fields of `self.session`. -/
structure Session where
  accessJwt : Option String := none
  refreshJwt : Option String := none
deriving DecidableEq

/-- The outcome of a `Client.call`. -/
inductive CallOut where
  | success
  | httpError
  | fuelOut
deriving DecidableEq

/-- Result of a modelled `Client.call`: outcome, session afterwards, next
request index, and the nsids of the HTTP requests made (in order, ghost
data used to count retries). -/
structure CallRes where
  out : CallOut
  session : Session
  next : Nat
  log : List String

/-- `Client.call`'s response handling (client.py lines 210-260).
`oracle k` is the response to the `k`-th HTTP request of this client;
`mtype nsid` is `self._get_def(nsid)['type']`.  On a login/refresh call
the session is overwritten with the output (emptied on failure, which
then raises through `raise_for_status`).  On any other non-ok response
whose body is a truthy JSON dict with a token-expired-class `error` —
unless the call is a `com.atproto.identity` procedure — the client calls
the refresh method and then RE-ENTERS this same path for the original
call. -/
def clientCall (oracle : Nat → Resp) (mtype : String → String) :
    Nat → Session → String → Nat → CallRes
  | 0, sess, _, k => ⟨.fuelOut, sess, k, []⟩
  | fuel + 1, sess, nsid, k =>
    let resp := oracle k
    if nsid == LOGIN_NSID || nsid == REFRESH_NSID then
      let sess2 : Session :=
        if resp.ok then ⟨resp.accessJwt, resp.refreshJwt⟩ else {}
      ⟨if resp.ok then .success else .httpError, sess2, k + 1, [nsid]⟩
    else if !resp.ok && resp.isJsonDict &&
        (match resp.errorField with
         | some e => TOKEN_ERRORS.contains e
         | none => false) &&
        !(mtype nsid == "procedure" && nsid.startsWith "com.atproto.identity")
    then
      let r1 := clientCall oracle mtype fuel sess REFRESH_NSID (k + 1)
      match r1.out with
      | .success =>
        let r2 := clientCall oracle mtype fuel r1.session nsid r1.next
        ⟨r2.out, r2.session, r2.next, nsid :: (r1.log ++ r2.log)⟩
      | e => ⟨e, r1.session, r1.next, nsid :: r1.log⟩
    else if !resp.ok then ⟨.httpError, sess, k + 1, [nsid]⟩
    else ⟨.success, sess, k + 1, [nsid]⟩

/-! ## Schema builders and concrete instances used in the theorems below -/

/-- A union definition dict: type/refs/closed. -/
def unionSchema (refs : Option (List String)) (closed : Option Bool) : Schema :=
  Schema.ofCore { type := some "union", refs := refs, closed := closed }

/-- An object definition dict: type/properties/required/nullable. -/
def objectSchema (props : List (String × Schema)) (req nul : List String) :
    Schema :=
  Schema.mk { type := some "object", required := req, nullable := nul } none
    props none none none none none none

/-- A params definition dict, identical to `objectSchema` except for its
`type` tag. -/
def paramsSchema (props : List (String × Schema)) (req nul : List String) :
    Schema :=
  Schema.mk { type := some "params", required := req, nullable := nul } none
    props none none none none none none

/-- A string definition with only `maxGraphemes`. -/
def strMaxG (g : Int) : Schema :=
  Schema.ofCore { type := some "string", maxGraphemes := some g }

/-- A string definition with only `maxLength` (UTF-8 bytes). -/
def strMaxLen (m : Int) : Schema :=
  Schema.ofCore { type := some "string", maxLength := some m }

/-- A string definition with both `maxGraphemes` and `maxLength`. -/
def strMaxG2Len2 : Schema :=
  Schema.ofCore
    { type := some "string", maxGraphemes := some 2, maxLength := some 2 }

/-- An integer definition with optional `minimum`/`maximum`. -/
def intSchema (mn mx : Option Int) : Schema :=
  Schema.ofCore { type := some "integer", minimum := mn, maximum := mx }

/-- One grapheme cluster per code point: the segmentation of the plain
(no combining marks) strings used in the concrete instances. -/
def asciiG (s : String) : GStr := s.data.map (fun c => [c])

/-- Validating context: `validate=True, truncate=False`, empty registry. -/
def ctxV0 : Ctx := ⟨true, false, []⟩

/-- Context with `validate=True, truncate=True`, empty registry. -/
def ctxVT0 : Ctx := ⟨true, true, []⟩

/-- A dict whose `$type` is unknown to the registry and not among the
closed union's refs. -/
def storeClosedMiss : Store :=
  [(0, [("$type", PVal.str (asciiG "app.test#zzz"))])]

/-- A dict whose `$type` is among the closed union's refs but unknown to
the registry. -/
def storeClosedHit : Store :=
  [(0, [("$type", PVal.str (asciiG "app.test#a"))])]

/-- The format names `_validate_string_format` is specified to recognize
(one per branch of the source). -/
def knownFormats : List String :=
  ["at-identifier", "at-uri", "cid", "datetime", "did", "nsid", "handle",
   "tid", "record-key", "uri", "language"]

/-- A query definition. -/
def defA : Schema := Schema.ofCore { type := some "query" }

/-- A procedure definition (distinguishable from `defA`). -/
def defB : Schema := Schema.ofCore { type := some "procedure" }

/-- A lexicon document declaring `com.ex.a` as `defA`. -/
def lexA : Lexicon := ⟨some "com.ex.a", some 1, [("main", defA)]⟩

/-- A second document declaring the SAME id `com.ex.a` as `defB`. -/
def lexB : Lexicon := ⟨some "com.ex.a", some 1, [("main", defB)]⟩

/-- A server that answers every request for the original method with a
token-expired error and every refresh request with a fresh session
(requests alternate: even indices are the original call, odd ones the
refresh). -/
def oracleExpired : Nat → Resp := fun k =>
  if k % 2 == 0 then ⟨false, true, some "ExpiredToken", none, none⟩
  else ⟨true, true, none, some "new-access", some "new-refresh"⟩

/-- A record definition whose record schema has one string property
`text` with `maxGraphemes` 2. -/
def recDef : Schema :=
  Schema.mk { type := some "record" } none []
    (some (objectSchema [("text", strMaxG 2)] [] [])) none none none none none

/-- Registry with `recDef`, truncate mode on. -/
def ctxRT : Ctx := ⟨true, true, [("io.example.rec", recDef)]⟩

/-- A dict with `text = "abc"` (3 graphemes). -/
def storeText : Store := [(0, [("text", PVal.str (asciiG "abc"))])]

/-- A dict with `ok = "abc"`, within a `maxGraphemes` of 5. -/
def storeOk5 : Store := [(0, [("ok", PVal.str (asciiG "abc"))])]

/-- One declared integer property `limit`. -/
def propsLimit : List (String × Schema) := [("limit", intSchema none none)]

/-- A query definition with parameters `{limit: integer}`. -/
def qDef : Schema :=
  Schema.mk { type := some "query" } none [] none none none none none
    (some (paramsSchema propsLimit [] []))

/-- Registry with `qDef`, validate mode on. -/
def ctxQ : Ctx := ⟨true, false, [("io.example.q", qDef)]⟩

/-- A parameter dict `{limit: 5}`. -/
def storeLimit : Store := [(0, [("limit", PVal.int 5)])]

/-- A parameter dict `{limit: 5, extra: 1}` with the undeclared key
`extra`. -/
def storeLimitX : Store :=
  [(0, [("limit", PVal.int 5), ("extra", PVal.int 1)])]

/-- The string `ééé`: 3 characters (and 3 graphemes) but 6 UTF-8 bytes. -/
def eAcc : GStr := [['é'], ['é'], ['é']]

/-! ## Helper lemmas -/

/-- Overwriting an EXISTING key of a Python dict leaves its key list
unchanged. -/
theorem aset_keys {β : Type} (l : List (String × β)) (k : String) (v w : β)
    (h : alookup l k = some w) : (aset l k v).map Prod.fst = l.map Prod.fst := by
  induction l with
  | nil => cases h
  | cons p rest ih =>
    obtain ⟨k2, v2⟩ := p
    rw [aset]
    by_cases hk : (k2 == k) = true
    · simp [hk]
    · rw [alookup, if_neg hk] at h
      simp only [if_neg hk, List.map_cons]
      rw [ih h]

/-- An in-place store write to an existing key preserves every dict's key
list. -/
theorem storeSet_keys (store : Store) (a : Nat) (p : String) (v w : PVal)
    (h : alookup (storeDict store a) p = some w) (b : Nat) :
    dictKeys (storeSet store a p v) b = dictKeys store b := by
  induction store with
  | nil => rfl
  | cons e rest ih =>
    obtain ⟨a2, d⟩ := e
    by_cases ha : (a2 == a) = true
    · rw [storeDict, if_pos ha] at h
      rw [storeSet, if_pos ha]
      unfold dictKeys storeDict
      by_cases hb : (a2 == b) = true
      · rw [if_pos hb, if_pos hb]
        exact aset_keys d p v w h
      · rw [if_neg hb, if_neg hb]
    · rw [storeDict, if_neg ha] at h
      rw [storeSet, if_neg ha]
      unfold dictKeys storeDict
      by_cases hb : (a2 == b) = true
      · rw [if_pos hb, if_pos hb]
      · rw [if_neg hb, if_neg hb]
        exact ih h

/-- If a validation run reports no truncation (ghost flag `false`), the
store is returned exactly as it was: the only store write in
`_validate_schema` is the truncation of an over-long string property. -/
theorem noTruncAux (fuel : Nat) :
    (∀ ctx name val type_ lexicon schema store r,
      validateSchema ctx fuel name val type_ lexicon schema store = .ok r →
        r.2 = false → r.1 = store) ∧
    (∀ ctx name items schema lexicon store r,
      validateItems ctx fuel name items schema lexicon store = .ok r →
        r.2 = false → r.1 = store) ∧
    (∀ ctx val props required nullable lexicon store r,
      validateProps ctx fuel val props required nullable lexicon store = .ok r →
        r.2 = false → r.1 = store) := by
  induction fuel with
  | zero =>
    refine ⟨?_, ?_, ?_⟩
    · intro ctx name val type_ lexicon schema store r hok hb
      rw [validateSchema.eq_def] at hok; cases hok
    · intro ctx name items schema lexicon store r hok hb
      rw [validateItems.eq_def] at hok; cases hok
    · intro ctx val props required nullable lexicon store r hok hb
      rw [validateProps.eq_def] at hok; cases hok
  | succ n ih =>
    obtain ⟨ihS, ihI, ihP⟩ := ih
    refine ⟨?_, ?_, ?_⟩
    · intro ctx name val type_ lexicon schema store r hok hb
      rw [validateSchema] at hok
      simp only [bind, Except.bind] at hok
      repeat' split at hok
      all_goals (try cases hok)
      all_goals (try rfl)
      rename_i xA vA heqA xB vB heqB xC vC heqC xD vD heqD
      have hb2 : vA.2 = false ∧ vC.2 = false := by simpa using hb
      have hA : vA.1 = store := by
        repeat' split at heqA
        all_goals (try (cases heqA))
        · exact ihI _ _ _ _ _ _ _ heqA hb2.1
        · rfl
      have hC : vC.1 = vA.1 := ihP _ _ _ _ _ _ _ _ heqC hb2.2
      show vC.1 = store
      rw [hC, hA]
    · intro ctx name items schema lexicon store r hok hb
      rw [validateItems.eq_def] at hok
      split at hok
      · cases hok
      · rename_i f hf
        obtain rfl : f = n := by omega
        cases items with
        | nil => cases hok; rfl
        | cons x rest =>
          simp only [bind, Except.bind] at hok
          repeat' split at hok
          all_goals (try cases hok)
          rename_i xS vS heqS xI vI heqI
          have hb2 : vS.2 = false ∧ vI.2 = false := by simpa using hb
          have hS : vS.1 = store := ihS _ _ _ _ _ _ _ _ heqS hb2.1
          have hI : vI.1 = vS.1 := ihI _ _ _ _ _ _ _ heqI hb2.2
          show vI.1 = store
          rw [hI, hS]
    · intro ctx val props required nullable lexicon store r hok hb
      rw [validateProps.eq_def] at hok
      split at hok
      · cases hok
      · rename_i f hf
        obtain rfl : f = n := by omega
        cases props with
        | nil => cases hok; rfl
        | cons p rest =>
          repeat' (first
            | split at hok
            | simp only [bind, Except.bind] at hok)
          all_goals (try cases hok)
          all_goals (try rfl)
          all_goals (try (exact ihP _ _ _ _ _ _ _ _ hok hb))
          all_goals (
            rename_i xS vS heqS xP vP heqP
            first
            | (have hb2 : vS.2 = false ∧ vP.2 = false := by simpa using hb
               have h1 : vS.1 = store := ihS _ _ _ _ _ _ _ _ heqS hb2.1
               have h2 : vP.1 = vS.1 := ihP _ _ _ _ _ _ _ _ heqP hb2.2
               show vP.1 = store
               rw [h2, h1])
            | (simp only [Prod.snd, Bool.or_eq_false_iff,
                 decide_eq_false_iff_not] at hb
               obtain ⟨⟨hd, h1⟩, h2⟩ := hb
               simp only [if_neg hd] at heqS
               have hS : vS.1 = store := ihS _ _ _ _ _ _ _ _ heqS h1
               have hP : vP.1 = vS.1 := ihP _ _ _ _ _ _ _ _ heqP h2
               show vP.1 = store
               rw [hP, hS]))

/-- Validation never adds or removes dict keys: truncation overwrites the
value of an existing key only. -/
theorem keysAux (fuel : Nat) :
    (∀ ctx name val type_ lexicon schema store r,
      validateSchema ctx fuel name val type_ lexicon schema store = .ok r →
        ∀ b, dictKeys r.1 b = dictKeys store b) ∧
    (∀ ctx name items schema lexicon store r,
      validateItems ctx fuel name items schema lexicon store = .ok r →
        ∀ b, dictKeys r.1 b = dictKeys store b) ∧
    (∀ ctx val props required nullable lexicon store r,
      validateProps ctx fuel val props required nullable lexicon store = .ok r →
        ∀ b, dictKeys r.1 b = dictKeys store b) := by
  induction fuel with
  | zero =>
    refine ⟨?_, ?_, ?_⟩
    · intro ctx name val type_ lexicon schema store r hok
      rw [validateSchema.eq_def] at hok; cases hok
    · intro ctx name items schema lexicon store r hok
      rw [validateItems.eq_def] at hok; cases hok
    · intro ctx val props required nullable lexicon store r hok
      rw [validateProps.eq_def] at hok; cases hok
  | succ n ih =>
    obtain ⟨ihS, ihI, ihP⟩ := ih
    refine ⟨?_, ?_, ?_⟩
    · intro ctx name val type_ lexicon schema store r hok
      rw [validateSchema] at hok
      simp only [bind, Except.bind] at hok
      repeat' split at hok
      all_goals (try cases hok)
      all_goals (try (intro b; rfl))
      rename_i xA vA heqA xB vB heqB xC vC heqC xD vD heqD
      intro b
      have hA : dictKeys vA.1 b = dictKeys store b := by
        repeat' split at heqA
        all_goals (try (cases heqA))
        · exact ihI _ _ _ _ _ _ _ heqA b
        · rfl
      have hC : dictKeys vC.1 b = dictKeys vA.1 b := ihP _ _ _ _ _ _ _ _ heqC b
      show dictKeys vC.1 b = dictKeys store b
      rw [hC, hA]
    · intro ctx name items schema lexicon store r hok
      rw [validateItems.eq_def] at hok
      split at hok
      · cases hok
      · rename_i f hf
        obtain rfl : f = n := by omega
        cases items with
        | nil => cases hok; intro b; rfl
        | cons x rest =>
          simp only [bind, Except.bind] at hok
          repeat' split at hok
          all_goals (try cases hok)
          rename_i xS vS heqS xI vI heqI
          intro b
          have hS : dictKeys vS.1 b = dictKeys store b :=
            ihS _ _ _ _ _ _ _ _ heqS b
          have hI : dictKeys vI.1 b = dictKeys vS.1 b :=
            ihI _ _ _ _ _ _ _ heqI b
          show dictKeys vI.1 b = dictKeys store b
          rw [hI, hS]
    · intro ctx val props required nullable lexicon store r hok
      rw [validateProps.eq_def] at hok
      split at hok
      · cases hok
      · rename_i f hf
        obtain rfl : f = n := by omega
        cases props with
        | nil => cases hok; intro b; rfl
        | cons p rest =>
          repeat' (first
            | split at hok
            | simp only [bind, Except.bind] at hok)
          all_goals (try cases hok)
          all_goals (try (intro b; rfl))
          all_goals (try (exact ihP _ _ _ _ _ _ _ _ hok))
          all_goals (
            rename_i xS vS heqS xP vP heqP
            intro b
            first
            | (have h1 : dictKeys vS.1 b = dictKeys store b :=
                 ihS _ _ _ _ _ _ _ _ heqS b
               have h2 : dictKeys vP.1 b = dictKeys vS.1 b :=
                 ihP _ _ _ _ _ _ _ _ heqP b
               show dictKeys vP.1 b = dictKeys store b
               rw [h2, h1])
            | (rename_i n1 n2 aa n3 n4 rf n5 n6 n7 mg n8 n9 s hdg n10
               have hvS : dictKeys vS.1 b = dictKeys store b := by
                 have h1 := ihS _ _ _ _ _ _ _ _ heqS b
                 rw [h1]
                 split
                 · exact storeSet_keys _ _ _ _ _ hdg b
                 · rfl
               have hvP : dictKeys vP.1 b = dictKeys vS.1 b :=
                 ihP _ _ _ _ _ _ _ _ heqP b
               show dictKeys vP.1 b = dictKeys store b
               rw [hvP, hvS]))

/-- The property loop on an empty property list touches nothing. -/
theorem validateProps_nil (ctx : Ctx) (f : Nat) (val : PVal)
    (required nullable : List String) (lexicon : String) (store : Store) :
    validateProps ctx (f + 1) val [] required nullable lexicon store =
      .ok (store, false) := rfl

/-- Every return path of `Base.validate` returns the very object it was
passed. -/
theorem validateReturnsArg
    (ctx : Ctx) (fuel : Nat) (nsid ftype : String) (obj : PVal)
    (store : Store) (v : PVal) (st2 : Store) (tr : Bool)
    (h : baseValidate ctx fuel nsid ftype obj store = .ok (v, st2, tr)) :
    v = obj := by
  simp only [baseValidate] at h
  repeat' split at h
  all_goals (try cases h)
  all_goals rfl

/-! ## Claim theorems -/

/-- C1: With `validate=True`, a union value carrying a non-empty `$type`
is checked against the union's `refs` when `closed` is true — an
unresolvable discriminator outside the closed refs raises
ValidationError, while one that is merely absent from the registry (the
union being open, or the discriminator among the closed refs) passes and
the value is returned unchanged. The claim's unconditional "passes
validation" for every unresolvable `$type` is therefore corrected: the
closed-refs membership check runs first. -/
theorem C1_union_discriminator
    (ctx : Ctx) (fuel : Nat) (name lexicon : String) (store : Store) (a : Nat)
    (rs : List String) (closed : Bool) (d : GStr)
    (hval : ctx.validate = true)
    (hty : dictGet store a "$type" = some (.str d))
    (hne : gcFlat d ≠ []) :
    (closed = true → gcStr d ∉ rs.map (urljoinId lexicon) →
      validateSchema ctx (fuel + 1) name (.dict a) "union" lexicon
        (unionSchema (some rs) (some closed)) store =
        .error (.validation "isn't one of closed union refs")) ∧
    (alookup ctx.defs (urljoinId lexicon (gcStr d)) = none →
      (closed = true → gcStr d ∈ rs.map (urljoinId lexicon)) →
      validateSchema ctx (fuel + 1) name (.dict a) "union" lexicon
        (unionSchema (some rs) (some closed)) store = .ok (store, false)) := by
  have hne2 : (gcFlat d).isEmpty = false := by
    cases h : gcFlat d with
    | nil => exact absurd h hne
    | cons c cs => rfl
  constructor
  · intro hc hmem
    subst hc
    rw [validateSchema]
    simp only [bind, Except.bind, checkConst, checkEnum, resolveUnknown,
      checkFieldType, checkLengths, checkStringBlock, checkNumBounds, checkToken,
      resolveRefStep, resolveUnionStep, unionSchema, Schema.ofCore, Schema.core,
      Schema.type, Schema.ref, Schema.refs, Schema.isEmpty, truthySV, truthyStr,
      truthyI, truthyB, fieldTypes, pyTruthy, hty, hne2, failV, hval]
    have hmem2 : ¬ ∃ x ∈ rs, urljoinId lexicon x = gcStr d := by
      simpa [List.mem_map] using hmem
    simp [hne, hmem2]
  · intro hres hcm
    rw [validateSchema]
    simp only [bind, Except.bind, checkConst, checkEnum, resolveUnknown,
      checkFieldType, checkLengths, checkStringBlock, checkNumBounds, checkToken,
      resolveRefStep, resolveUnionStep, unionSchema, Schema.ofCore, Schema.core,
      Schema.type, Schema.ref, Schema.refs, Schema.isEmpty, truthySV, truthyStr,
      truthyI, truthyB, fieldTypes, pyTruthy, hty, hne2, failV, hval,
      getSchemaFn, getDef, hres]
    cases closed with
    | false => simp [hne, hres, getSchemaFn, getDef]
    | true =>
      have hmem2 : ∃ x ∈ rs, urljoinId lexicon x = gcStr d := by
        simpa [List.mem_map] using hcm rfl
      simp [hne, hres, hmem2, getSchemaFn, getDef]


/-- A closed union rejects an unresolvable discriminator that is not among
its refs, even though the registry cannot resolve it. -/
theorem C1_counterexample :
    validateSchema ctxV0 3 "out" (.dict 0) "union" "app.test"
      (unionSchema (some ["app.test#a"]) (some true)) storeClosedMiss =
      .error (.validation "isn't one of closed union refs") ∧
    alookup ctxV0.defs (urljoinId "app.test" "app.test#zzz") = none :=
  ⟨rfl, rfl⟩


theorem C1_witness :
    (validateSchema ctxV0 3 "out" (.dict 0) "union" "app.test"
      (unionSchema (some ["app.test#a"]) (some true)) storeClosedMiss =
      .error (.validation "isn't one of closed union refs")) ∧
    (validateSchema ctxV0 3 "out" (.dict 0) "union" "app.test"
      (unionSchema (some ["app.test#a"]) (some true)) storeClosedHit =
      .ok (storeClosedHit, false)) :=
  ⟨(C1_union_discriminator ctxV0 2 "out" "app.test" storeClosedMiss 0
      ["app.test#a"] true (asciiG "app.test#zzz") rfl rfl (by decide)).1 rfl
      (by decide),
   (C1_union_discriminator ctxV0 2 "out" "app.test" storeClosedHit 0
      ["app.test#a"] true (asciiG "app.test#a") rfl rfl (by decide)).2 rfl
      (fun _ => by decide)⟩


/-- C2: When `Base.validate` succeeds without truncating, it returns the
very object it was given and the heap is unchanged: successful
non-truncating validation is the identity on the value. -/
theorem C2_validate_identity
    (ctx : Ctx) (fuel : Nat) (nsid ftype : String) (obj : PVal) (store : Store)
    (v : PVal) (store2 : Store)
    (h : baseValidate ctx fuel nsid ftype obj store = .ok (v, store2, false)) :
    v = obj ∧ store2 = store := by
  simp only [baseValidate] at h
  repeat' split at h
  all_goals (try cases h)
  all_goals (try exact ⟨rfl, rfl⟩)
  all_goals (
    rename_i x heq
    exact ⟨rfl, (noTruncAux fuel).1 _ _ _ _ _ _ _ _ heq rfl⟩)


theorem C2_witness :
    baseValidate ctxQ 5 "io.example.q" "parameters" (.dict 0) storeLimit =
      .ok (.dict 0, storeLimit, false) ∧
    (PVal.dict 0 = PVal.dict 0 ∧ storeLimit = storeLimit) :=
  ⟨rfl, C2_validate_identity ctxQ 5 "io.example.q" "parameters" (.dict 0)
      storeLimit (.dict 0) storeLimit rfl⟩


/-- C3: For `parameters` (type `params`) definitions the source adds a
closed-world check after the property loop: any supplied key that is not
a declared property raises ValidationError, whereas the identical
`object` definition accepts the extra key. -/
theorem C3_params_closed_world
    (ctx : Ctx) (fuel : Nat) (name lexicon : String) (store : Store) (a : Nat)
    (props : List (String × Schema)) (req nul : List String) (k : String)
    (r : Store × Bool)
    (hval : ctx.validate = true)
    (hk : k ∈ dictKeys store a) (hkp : k ∉ props.map Prod.fst)
    (hobj : validateSchema ctx (fuel + 1) name (.dict a) "io.example.q" lexicon
      (objectSchema props req nul) store = .ok r) :
    validateSchema ctx (fuel + 1) name (.dict a) "io.example.q" lexicon
      (paramsSchema props req nul) store =
      .error (.validation "unknown parameters") := by
  have hfil : ((dictKeys store a).filter
      (fun x => !(props.map Prod.fst).contains x)).isEmpty = false := by
    have hmem : k ∈ (dictKeys store a).filter
        (fun x => !(props.map Prod.fst).contains x) := by
      refine List.mem_filter.2 ⟨hk, ?_⟩
      simpa using hkp
    cases h : (dictKeys store a).filter
        (fun x => !(props.map Prod.fst).contains x) with
    | nil => rw [h] at hmem; cases hmem
    | cons y ys => rfl
  rw [validateSchema] at hobj ⊢
  simp only [bind, Except.bind, checkConst, checkEnum, resolveUnknown,
    checkFieldType, checkLengths, checkStringBlock, checkNumBounds, checkToken,
    resolveRefStep, resolveUnionStep, paramsCheck, objectSchema, paramsSchema,
    Schema.ofCore, Schema.core, Schema.type, Schema.ref, Schema.refs,
    Schema.isEmpty, Schema.properties, Schema.required, Schema.nullable,
    truthySV, truthyStr, truthyI, truthyB, failV, hval, fieldTypes,
    pvalIsDict] at hobj ⊢
  simp at hobj ⊢
  cases hP : validateProps ctx fuel (.dict a) props req nul lexicon store with
  | error e => rw [hP] at hobj; simp at hobj
  | ok v =>
    have hkeys : dictKeys v.1 a = dictKeys store a :=
      (keysAux fuel).2.2 _ _ _ _ _ _ _ _ hP a
    simp only [hkeys, hfil]
    rfl


theorem C3_witness :
    (validateSchema ctxV0 5 "parameters" (.dict 0) "io.example.q"
      "io.example.q" (objectSchema propsLimit [] []) storeLimitX =
      .ok (storeLimitX, false)) ∧
    (validateSchema ctxV0 5 "parameters" (.dict 0) "io.example.q"
      "io.example.q" (paramsSchema propsLimit [] []) storeLimitX =
      .error (.validation "unknown parameters")) :=
  ⟨rfl, C3_params_closed_world ctxV0 4 "parameters" "io.example.q" storeLimitX 0
      propsLimit [] [] "extra" (storeLimitX, false) rfl (by decide) (by decide)
      rfl⟩


/-- C4: With `truncate=True`, a string property exceeding `maxGraphemes`
is truncated in place to exactly `maxGraphemes` clusters ending in an
ellipsis, the truncated value re-validates under the same grapheme bound
(idempotence), and a string within the bound is left untouched. The
claim's "never raises" is corrected: validation continues on the
truncated value, which can still violate other constraints such as the
byte-level `maxLength`. -/
theorem C4_truncation
    (ctx : Ctx) (fuel : Nat) (store : Store) (a : Nat) (p : String) (g : Int)
    (s : GStr)
    (hval : ctx.validate = true) (htr : ctx.truncate = true)
    (hp : dictGet store a p = some (.str s)) (hg : 1 ≤ g) :
    (gLen s > g →
      validateSchema ctx (fuel + 4) "record" (.dict a) "io.example.r"
        "io.example.r" (objectSchema [(p, strMaxG g)] [] []) store =
        .ok (storeSet store a p (.str (truncStr g s)), true) ∧
      gLen (truncStr g s) = g ∧ (truncStr g s).getLast? = some ['…']) ∧
    (gLen s ≤ g →
      validateSchema ctx (fuel + 4) "record" (.dict a) "io.example.r"
        "io.example.r" (objectSchema [(p, strMaxG g)] [] []) store =
        .ok (store, false)) ∧
    truncStr g (truncStr g s) = truncStr g s := by
  have hg0 : (g == 0) = false := by
    have h9 : g ≠ 0 := by omega
    simpa using h9
  have hinner : ∀ (s2 : GStr) (st : Store), gLen s2 ≤ g →
      validateSchema ctx (fuel + 2) p (.str s2) "string" "io.example.r"
        (strMaxG g) st = .ok (st, false) := by
    intro s2 st hle
    rw [validateSchema]
    simp [bind, Except.bind, checkConst, checkEnum, resolveUnknown,
      checkFieldType, checkLengths, checkStringBlock, checkNumBounds,
      checkToken, resolveRefStep, resolveUnionStep, paramsCheck, strMaxG,
      Schema.ofCore, Schema.core, Schema.type, Schema.ref, Schema.refs,
      Schema.isEmpty, Schema.properties, Schema.required, Schema.nullable,
      truthySV, truthyStr, truthyI, truthyB, failV, hval, fieldTypes, pyType,
      pyLenOf, hg0, pvalIsDict, validateProps_nil,
      (show ¬ gLen s2 > g by omega)]
  have hstep :
      validateProps ctx (fuel + 3) (.dict a) [(p, strMaxG g)] [] []
        "io.example.r" store =
        (if gLen s > g then
          Except.bind (validateSchema ctx (fuel + 2) p (.str (truncStr g s))
              "string" "io.example.r" (strMaxG g)
              (storeSet store a p (.str (truncStr g s))))
            (fun r1 => Except.bind (validateProps ctx (fuel + 2) (.dict a)
                [] [] [] "io.example.r" r1.1)
              (fun r2 => .ok (r2.1, true || r1.2 || r2.2)))
        else
          Except.bind (validateSchema ctx (fuel + 2) p (.str s) "string"
              "io.example.r" (strMaxG g) store)
            (fun r1 => Except.bind (validateProps ctx (fuel + 2) (.dict a)
                [] [] [] "io.example.r" r1.1)
              (fun r2 => .ok (r2.1, false || r1.2 || r2.2)))) := by
    rw [validateProps.eq_def]
    split
    · omega
    · rename_i f2 hf2
      obtain rfl : f2 = fuel + 2 := by omega
      simp only [bind, Except.bind, hp, hg0, htr, Schema.core, strMaxG,
        Schema.ofCore, Schema.type, truthyI, if_true, Bool.false_eq_true,
        if_false]
      by_cases hgt : gLen s > g
      · simp only [if_pos hgt]
        simp [hgt]
        try rfl
      · simp only [if_neg hgt]
        simp [hgt]
        try rfl
  have hnil : ∀ st2 : Store,
      validateProps ctx (fuel + 2) (PVal.dict a) [] [] [] "io.example.r" st2 =
        .ok (st2, false) :=
    fun st2 => validateProps_nil ctx (fuel + 1) _ _ _ _ st2
  refine ⟨?_, ?_, ?_⟩
  · intro hgt
    have hlen : gLen (truncStr g s) = g := by
      rw [truncStr, if_pos hgt]
      simp only [gLen, List.length_append, List.length_take, List.length_cons,
        List.length_nil]
      have h2 : (s.length : Int) > g := hgt
      omega
    refine ⟨?_, hlen, ?_⟩
    · rw [validateSchema]
      simp only [bind, Except.bind, checkConst, checkEnum, resolveUnknown,
        checkFieldType, checkLengths, checkStringBlock, checkNumBounds,
        checkToken, resolveRefStep, resolveUnionStep, paramsCheck, objectSchema,
        Schema.core, Schema.type, Schema.ref,
        Schema.refs, Schema.isEmpty, Schema.properties, Schema.required,
        Schema.nullable, truthySV, truthyStr, truthyI, truthyB, failV, hval,
        htr, fieldTypes, pvalIsDict]
      simp only [show (("io.example.r" == "unknown") = true) = False by simp,
        show (("io.example.r" == "ref") = true) = False by simp,
        show (("io.example.r" == "union") = true) = False by simp,
        show (("io.example.r" == "array") = true) = False by simp,
        show (("io.example.r" == "bytes") = true) = False by simp,
        show (("io.example.r" == "string") = true) = False by simp,
        show ((some "object" == some "token") = true) = False by simp,
        show ((some "object" == some "params") = true) = False by simp,
        if_false, if_true, Bool.false_eq_true]
      rw [hstep, if_pos hgt, hinner (truncStr g s) _ (by omega)]
      simp [Except.bind, hnil]
    · rw [truncStr, if_pos hgt]
      simp
  · intro hle
    rw [validateSchema]
    simp only [bind, Except.bind, checkConst, checkEnum, resolveUnknown,
      checkFieldType, checkLengths, checkStringBlock, checkNumBounds,
      checkToken, resolveRefStep, resolveUnionStep, paramsCheck, objectSchema,
      Schema.core, Schema.type, Schema.ref,
      Schema.refs, Schema.isEmpty, Schema.properties, Schema.required,
      Schema.nullable, truthySV, truthyStr, truthyI, truthyB, failV, hval,
      htr, fieldTypes, pvalIsDict]
    simp only [show (("io.example.r" == "unknown") = true) = False by simp,
      show (("io.example.r" == "ref") = true) = False by simp,
      show (("io.example.r" == "union") = true) = False by simp,
      show (("io.example.r" == "array") = true) = False by simp,
      show (("io.example.r" == "bytes") = true) = False by simp,
      show (("io.example.r" == "string") = true) = False by simp,
      show ((some "object" == some "token") = true) = False by simp,
      show ((some "object" == some "params") = true) = False by simp,
      if_false, if_true, Bool.false_eq_true]
    by_cases hgt : gLen s > g
    · omega
    · rw [hstep, if_neg hgt, hinner s _ hle]
      simp [Except.bind, hnil]
  · by_cases hgt : gLen s > g
    · have hlen : gLen (truncStr g s) = g := by
        rw [truncStr, if_pos hgt]
        simp only [gLen, List.length_append, List.length_take, List.length_cons,
          List.length_nil]
        have h2 : (s.length : Int) > g := hgt
        omega
      rw [truncStr.eq_def]
      rw [if_neg (by omega : ¬ gLen (truncStr g s) > g)]
    · have h1 : truncStr g s = s := by rw [truncStr, if_neg hgt]
      rw [h1, h1]


/-- Truncation to `maxGraphemes` 2 does not prevent a subsequent
`maxLength` (bytes) failure on the same string, so the truncating run
still raises. -/
theorem C4_counterexample :
    validateSchema ctxVT0 8 "record" (.dict 0) "io.example.r" "io.example.r"
      (objectSchema [("text", strMaxG2Len2)] [] []) storeText =
      .error (.validation "is longer than maxLength") := rfl


theorem C4_witness :
    (validateSchema ctxVT0 8 "record" (.dict 0) "io.example.r" "io.example.r"
      (objectSchema [("text", strMaxG 2)] [] []) storeText =
      .ok (storeSet storeText 0 "text" (.str (truncStr 2 (asciiG "abc"))),
        true)) ∧
    gLen (truncStr 2 (asciiG "abc")) = 2 ∧
    (truncStr 2 (asciiG "abc")).getLast? = some ['…'] ∧
    truncStr 2 (truncStr 2 (asciiG "abc")) = truncStr 2 (asciiG "abc") ∧
    (validateSchema ctxVT0 8 "record" (.dict 0) "io.example.r" "io.example.r"
      (objectSchema [("ok", strMaxG 5)] [] []) storeOk5 =
      .ok (storeOk5, false)) := by
  have h1 := C4_truncation ctxVT0 4 storeText 0 "text" 2 (asciiG "abc")
    rfl rfl rfl (by decide)
  have h2 := C4_truncation ctxVT0 4 storeOk5 0 "ok" 5 (asciiG "abc")
    rfl rfl rfl (by decide)
  exact ⟨(h1.1 (by decide)).1, (h1.1 (by decide)).2.1, (h1.1 (by decide)).2.2,
    h1.2.2, h2.2.1 (by decide)⟩


/-- C5: `Base.__init__` does not raise on two lexicons with the same id:
it stores each document's definitions into the same dict, so the later
document silently overwrites the earlier one and the registry ends with
the second definition. The claim's promised duplicate-id error is
corrected to last-write-wins. -/
theorem C5_duplicate_id_last_wins
    (nsid : String) (d1 d2 : Schema) (t1 t2 : String)
    (h1 : d1.type = some t1) (ht1 : t1 ∈ LEXICON_TYPES_ALL)
    (h2 : d2.type = some t2) (ht2 : t2 ∈ LEXICON_TYPES_ALL)
    (hn : nsid ≠ "") (hb : nsid ≠ "blob") :
    mkBase [⟨some nsid, some 1, [("main", d1)]⟩,
            ⟨some nsid, some 1, [("main", d2)]⟩] =
      .ok [(nsid, d2), ("blob", blobDef)] := by
  have he : (nsid == "") = false := by simpa using hn
  have hbb : (nsid == "blob") = false := by simpa using hb
  simp [mkBase, loadLexicons, loadDefs, aset, he, hbb, h1, h2, ht1, ht2]


/-- Loading two lexicons with the same id succeeds and the registry holds
the SECOND document's definition. -/
theorem C5_counterexample :
    mkBase [lexA, lexB] = .ok [("com.ex.a", defB), ("blob", blobDef)] ∧
    alookup [("com.ex.a", defB), ("blob", blobDef)] "com.ex.a" = some defB ∧
    defA.type = some "query" ∧ defB.type = some "procedure" :=
  ⟨rfl, rfl, rfl, rfl⟩


theorem C5_witness :
    mkBase [⟨some "com.ex.a", some 1, [("main", defA)]⟩,
            ⟨some "com.ex.a", some 1, [("main", defB)]⟩] =
      .ok [("com.ex.a", defB), ("blob", blobDef)] :=
  C5_duplicate_id_last_wins "com.ex.a" defA defB "query" "procedure" rfl
    (by decide) rfl (by decide) (by decide) (by decide)


/-- C6: `_validate_string_format` dispatches handles with
`format in 'handle'`, a Python substring test, so the unknown format name
`"hand"` is validated as a handle and succeeds instead of raising the
unrecognized-format ValidationError that the genuinely unknown name
`"bogus"` gets. Every sibling branch compares with `==`; this is a source
bug. -/
theorem C6_substring_format_not_rejected :
    "hand" ∉ knownFormats ∧
    validateStringFormat "example.com".data "hand" = .ok () ∧
    validateStringFormat "example.com".data "bogus" =
      .error (.validation "unknown format bogus") :=
  ⟨by decide, rfl, rfl⟩


/-- C7: `maxLength` on strings counts UTF-8 BYTES, not characters: a
string whose encoded length exceeds the bound raises ValidationError and
one within it passes. -/
theorem C7_byte_length
    (ctx : Ctx) (fuel : Nat) (name lexicon : String) (store : Store)
    (s : GStr) (m : Int)
    (hval : ctx.validate = true) (hm : m ≠ 0) :
    (utf8Len s > m →
      validateSchema ctx (fuel + 2) name (.str s) "string" lexicon
        (strMaxLen m) store = .error (.validation "is longer than maxLength")) ∧
    (utf8Len s ≤ m →
      validateSchema ctx (fuel + 2) name (.str s) "string" lexicon
        (strMaxLen m) store = .ok (store, false)) := by
  have hm0 : (m == 0) = false := by simpa using hm
  constructor
  · intro hgt
    rw [validateSchema]
    simp [bind, Except.bind, checkConst, checkEnum, resolveUnknown,
      checkFieldType, checkLengths, checkStringBlock, checkNumBounds,
      checkToken, resolveRefStep, resolveUnionStep, paramsCheck, strMaxLen,
      Schema.ofCore, Schema.core, Schema.type, Schema.ref, Schema.refs,
      Schema.isEmpty, Schema.properties, Schema.required, Schema.nullable,
      truthySV, truthyStr, truthyI, truthyB, failV, hval, fieldTypes, pyType,
      pyLenOf, hm0, pvalIsDict, hgt]
  · intro hle
    rw [validateSchema]
    simp [bind, Except.bind, checkConst, checkEnum, resolveUnknown,
      checkFieldType, checkLengths, checkStringBlock, checkNumBounds,
      checkToken, resolveRefStep, resolveUnionStep, paramsCheck, strMaxLen,
      Schema.ofCore, Schema.core, Schema.type, Schema.ref, Schema.refs,
      Schema.isEmpty, Schema.properties, Schema.required, Schema.nullable,
      truthySV, truthyStr, truthyI, truthyB, failV, hval, fieldTypes, pyType,
      pyLenOf, hm0, pvalIsDict, validateProps_nil,
      (show ¬ utf8Len s > m by omega)]


theorem C7_witness :
    (gcFlat eAcc).length = 3 ∧ utf8Len eAcc = 6 ∧
    (validateSchema ctxV0 5 "text" (.str eAcc) "string" "io.example.q"
      (strMaxLen 5) [] = .error (.validation "is longer than maxLength")) ∧
    (validateSchema ctxV0 5 "text" (.str eAcc) "string" "io.example.q"
      (strMaxLen 6) [] = .ok ([], false)) :=
  ⟨by decide, by decide,
   (C7_byte_length ctxV0 3 "text" "io.example.q" [] eAcc 5 rfl
      (by decide)).1 (by decide),
   (C7_byte_length ctxV0 3 "text" "io.example.q" [] eAcc 6 rfl
      (by decide)).2 (by decide)⟩


/-- C8: Integer `minimum`/`maximum` bounds are inclusive — below-minimum
and above-maximum raise, the endpoints pass — but the claim's "whenever
declared" is corrected: the source guards each bound with a truthiness
walrus, so a DECLARED bound of 0 is skipped and every integer passes
it. -/
theorem C8_numeric_bounds
    (ctx : Ctx) (fuel : Nat) (name lexicon : String) (store : Store)
    (n mn mx : Int)
    (hval : ctx.validate = true) (hmn : mn ≠ 0) (hmx : mx ≠ 0) :
    (n < mn →
      validateSchema ctx (fuel + 2) name (.int n) "integer" lexicon
        (intSchema (some mn) (some mx)) store =
        .error (.validation "is lower than minimum")) ∧
    (mn ≤ n → n > mx →
      validateSchema ctx (fuel + 2) name (.int n) "integer" lexicon
        (intSchema (some mn) (some mx)) store =
        .error (.validation "is higher than maximum")) ∧
    (mn ≤ n → n ≤ mx →
      validateSchema ctx (fuel + 2) name (.int n) "integer" lexicon
        (intSchema (some mn) (some mx)) store = .ok (store, false)) ∧
    (∀ k : Int, validateSchema ctx (fuel + 2) name (.int k) "integer" lexicon
        (intSchema (some 0) (some 0)) store = .ok (store, false)) := by
  have hmn0 : (mn == 0) = false := by simpa using hmn
  have hmx0 : (mx == 0) = false := by simpa using hmx
  refine ⟨?_, ?_, ?_, ?_⟩
  · intro hlt
    rw [validateSchema]
    simp [bind, Except.bind, checkConst, checkEnum, resolveUnknown,
      checkFieldType, checkLengths, checkStringBlock, checkNumBounds,
      checkToken, resolveRefStep, resolveUnionStep, paramsCheck, intSchema,
      Schema.ofCore, Schema.core, Schema.type, Schema.ref, Schema.refs,
      Schema.isEmpty, Schema.properties, Schema.required, Schema.nullable,
      truthySV, truthyStr, truthyI, truthyB, failV, hval, fieldTypes, pyType,
      pyLtInt, pyGtInt, hmn0, hmx0, pvalIsDict, hlt]
  · intro hge hgt
    rw [validateSchema]
    simp [bind, Except.bind, checkConst, checkEnum, resolveUnknown,
      checkFieldType, checkLengths, checkStringBlock, checkNumBounds,
      checkToken, resolveRefStep, resolveUnionStep, paramsCheck, intSchema,
      Schema.ofCore, Schema.core, Schema.type, Schema.ref, Schema.refs,
      Schema.isEmpty, Schema.properties, Schema.required, Schema.nullable,
      truthySV, truthyStr, truthyI, truthyB, failV, hval, fieldTypes, pyType,
      pyLtInt, pyGtInt, hmn0, hmx0, pvalIsDict, hgt,
      (show ¬ n < mn by omega)]
  · intro hge hle
    rw [validateSchema]
    simp [bind, Except.bind, checkConst, checkEnum, resolveUnknown,
      checkFieldType, checkLengths, checkStringBlock, checkNumBounds,
      checkToken, resolveRefStep, resolveUnionStep, paramsCheck, intSchema,
      Schema.ofCore, Schema.core, Schema.type, Schema.ref, Schema.refs,
      Schema.isEmpty, Schema.properties, Schema.required, Schema.nullable,
      truthySV, truthyStr, truthyI, truthyB, failV, hval, fieldTypes, pyType,
      pyLtInt, pyGtInt, hmn0, hmx0, pvalIsDict, validateProps_nil,
      (show ¬ n < mn by omega), (show ¬ n > mx by omega)]
  · intro k
    rw [validateSchema]
    simp [bind, Except.bind, checkConst, checkEnum, resolveUnknown,
      checkFieldType, checkLengths, checkStringBlock, checkNumBounds,
      checkToken, resolveRefStep, resolveUnionStep, paramsCheck, intSchema,
      Schema.ofCore, Schema.core, Schema.type, Schema.ref, Schema.refs,
      Schema.isEmpty, Schema.properties, Schema.required, Schema.nullable,
      truthySV, truthyStr, truthyI, truthyB, failV, hval, fieldTypes, pyType,
      pyLtInt, pyGtInt, pvalIsDict, validateProps_nil]


/-- An integer below a declared `minimum` of 0 passes validation: the
zero bound is skipped. -/
theorem C8_counterexample :
    validateSchema ctxV0 5 "n" (.int (-1)) "integer" "io.ex.q"
      (intSchema (some 0) none) [] = .ok ([], false) := rfl


theorem C8_witness :
    (validateSchema ctxV0 5 "n" (.int 0) "integer" "io.ex.q"
      (intSchema (some 1) (some 10)) [] =
      .error (.validation "is lower than minimum")) ∧
    (validateSchema ctxV0 5 "n" (.int 11) "integer" "io.ex.q"
      (intSchema (some 1) (some 10)) [] =
      .error (.validation "is higher than maximum")) ∧
    (validateSchema ctxV0 5 "n" (.int 1) "integer" "io.ex.q"
      (intSchema (some 1) (some 10)) [] = .ok ([], false)) ∧
    (validateSchema ctxV0 5 "n" (.int 10) "integer" "io.ex.q"
      (intSchema (some 1) (some 10)) [] = .ok ([], false)) ∧
    (validateSchema ctxV0 5 "n" (.int (-7)) "integer" "io.ex.q"
      (intSchema (some 0) (some 0)) [] = .ok ([], false)) :=
  ⟨(C8_numeric_bounds ctxV0 3 "n" "io.ex.q" [] 0 1 10 rfl (by decide)
      (by decide)).1 (by decide),
   (C8_numeric_bounds ctxV0 3 "n" "io.ex.q" [] 11 1 10 rfl (by decide)
      (by decide)).2.1 (by decide) (by decide),
   (C8_numeric_bounds ctxV0 3 "n" "io.ex.q" [] 1 1 10 rfl (by decide)
      (by decide)).2.2.1 (by decide) (by decide),
   (C8_numeric_bounds ctxV0 3 "n" "io.ex.q" [] 10 1 10 rfl (by decide)
      (by decide)).2.2.1 (by decide) (by decide),
   (C8_numeric_bounds ctxV0 3 "n" "io.ex.q" [] 0 1 10 rfl (by decide)
      (by decide)).2.2.2 (-7)⟩


/-- C9: On a token-expired error the client refreshes the session and
re-enters the same call path with the new tokens; nothing bounds the
retries, so the claim's "retries once" is corrected: a server that keeps
answering token-expired makes the client refresh and retry again each
time. -/
theorem C9_refresh_and_reenter
    (oracle : Nat → Resp) (mtype : String → String) (fuel k : Nat)
    (sess : Session) (nsid : String) (e : String)
    (h1 : nsid ≠ LOGIN_NSID) (h2 : nsid ≠ REFRESH_NSID)
    (h3 : ¬(mtype nsid = "procedure" ∧
      nsid.startsWith "com.atproto.identity" = true))
    (h4 : (oracle k).ok = false) (h5 : (oracle k).isJsonDict = true)
    (h6 : (oracle k).errorField = some e) (h7 : e ∈ TOKEN_ERRORS)
    (h8 : (oracle (k + 1)).ok = true) :
    clientCall oracle mtype (fuel + 2) sess nsid k =
      ⟨(clientCall oracle mtype (fuel + 1)
          ⟨(oracle (k + 1)).accessJwt, (oracle (k + 1)).refreshJwt⟩
          nsid (k + 2)).out,
       (clientCall oracle mtype (fuel + 1)
          ⟨(oracle (k + 1)).accessJwt, (oracle (k + 1)).refreshJwt⟩
          nsid (k + 2)).session,
       (clientCall oracle mtype (fuel + 1)
          ⟨(oracle (k + 1)).accessJwt, (oracle (k + 1)).refreshJwt⟩
          nsid (k + 2)).next,
       nsid :: REFRESH_NSID ::
         (clientCall oracle mtype (fuel + 1)
            ⟨(oracle (k + 1)).accessJwt, (oracle (k + 1)).refreshJwt⟩
            nsid (k + 2)).log⟩ := by
  have hb1 : (nsid == LOGIN_NSID) = false := by simpa using h1
  have hb2 : (nsid == REFRESH_NSID) = false := by simpa using h2
  have hb3 : (mtype nsid == "procedure" &&
      nsid.startsWith "com.atproto.identity") = false := by
    by_cases hmt : mtype nsid = "procedure"
    · have hbs : nsid.startsWith "com.atproto.identity" = false := by
        cases hsv : nsid.startsWith "com.atproto.identity" with
        | true => exact absurd ⟨hmt, hsv⟩ h3
        | false => rfl
      simp [hbs]
    · have hmb : (mtype nsid == "procedure") = false := by simpa using hmt
      simp [hmb]
  have hterr : TOKEN_ERRORS.contains e = true := by simpa using h7
  rw [clientCall]
  simp only [hb1, hb2, hb3, h4, h5, h6, hterr, Bool.or_self, Bool.false_or,
    Bool.and_true, Bool.and_false, Bool.true_and, Bool.not_false, if_false,
    Bool.false_eq_true, if_true]
  rw [clientCall]
  simp [h8, LOGIN_NSID, REFRESH_NSID]

-- fixtures (will move to definitions section in final file)

/-- Against a server that always answers token-expired, the client issues
the original call three times within three call-depth levels — more than
the single retry the claim allows. -/
theorem C9_counterexample :
    (clientCall oracleExpired (fun _ => "query") 3 ⟨none, none⟩
      "com.example.feed" 0).log.count "com.example.feed" = 3 := by decide


theorem C9_witness :
    clientCall oracleExpired (fun _ => "query") 5 ⟨none, none⟩
      "com.example.feed" 0 =
      ⟨(clientCall oracleExpired (fun _ => "query") 4
          ⟨some "new-access", some "new-refresh"⟩ "com.example.feed" 2).out,
       (clientCall oracleExpired (fun _ => "query") 4
          ⟨some "new-access", some "new-refresh"⟩ "com.example.feed" 2).session,
       (clientCall oracleExpired (fun _ => "query") 4
          ⟨some "new-access", some "new-refresh"⟩ "com.example.feed" 2).next,
       "com.example.feed" :: REFRESH_NSID ::
         (clientCall oracleExpired (fun _ => "query") 4
            ⟨some "new-access", some "new-refresh"⟩ "com.example.feed"
            2).log⟩ :=
  C9_refresh_and_reenter oracleExpired (fun _ => "query") 3 0 ⟨none, none⟩
    "com.example.feed" "ExpiredToken" (by decide) (by decide) (by decide)
    rfl rfl rfl (by decide) rfl


/-- C10: `Base.validate` returns its argument on every success path
(validation is in place), and a concrete truncating run mutates the
stored dict — `text` becomes the two-cluster `a…` — while returning the
same object reference. -/
theorem C10_validate_in_place :
    (∀ (ctx : Ctx) (fuel : Nat) (nsid ftype : String) (obj : PVal)
      (store : Store) (v : PVal) (st2 : Store) (tr : Bool),
      baseValidate ctx fuel nsid ftype obj store = .ok (v, st2, tr) →
        v = obj) ∧
    (baseValidate ctxRT 8 "io.example.rec" "record" (.dict 0) storeText =
      .ok (.dict 0, [(0, [("text", PVal.str [['a'], ['…']])])], true)) ∧
    storeText = [(0, [("text", PVal.str (asciiG "abc"))])] := by
  refine ⟨?_, rfl, rfl⟩
  intro ctx fuel nsid ftype obj store v st2 tr h
  exact validateReturnsArg ctx fuel nsid ftype obj store v st2 tr h

theorem C10_witness :
    baseValidate ctxRT 8 "io.example.rec" "record" (.dict 0) storeText =
      .ok (.dict 0, [(0, [("text", PVal.str [['a'], ['…']])])], true) ∧
    (PVal.dict 0 : PVal) = PVal.dict 0 :=
  ⟨rfl, C10_validate_in_place.1 ctxRT 8 "io.example.rec" "record" (.dict 0)
      storeText (.dict 0) [(0, [("text", PVal.str [['a'], ['…']])])] true rfl⟩
